import Mathlib

/-!
Shallow embedding of the Exclusive Display Scheduler of mac_images_player
(src/src/image_viewer.py): the landscape lock manager, the landscape queue,
the pane rotation step and the layout transition controller.  Times are
modelled in integer milliseconds; QTimer objects are modelled by their
observable state (active flag and remaining/interval value); randomness and
the filesystem are modelled by an explicit oracle environment.
-/

set_option autoImplicit false

namespace ImagesPlayer

/-- Layout mode of the viewer (class LayoutMode). -/
inductive LayoutMode where
  | portrait
  | landscape
deriving DecidableEq, Repr

/-- Stage of the landscape lock (self.landscape_lock_stage is None, 'preview' or 'playing'). -/
inductive LockStage where
  | preview
  | playing
deriving DecidableEq, Repr

/-- Observable state of one QTimer: whether it is active and its
remaining/interval value in milliseconds. -/
structure Timer where
  active : Bool
  remaining : Int
deriving DecidableEq, Repr

/-- Saved per-pane timer snapshot (one entry of self.portrait_timer_states). -/
structure SavedTimerState where
  index : Nat
  remaining : Int
  wasActive : Bool
  currentImage : String
deriving DecidableEq, Repr

/-- Oracle environment: filesystem facts and random draws.  random.choice is
modelled as a function of the candidate pool, random.randint for the portrait
interval as a function of the slot whose timer is being (re)started. -/
structure Env where
  isLandscapeImg : String → Bool
  fileExists : String → Bool
  loadOk : String → Bool
  choice : List String → String
  interval : Nat → Int

/-- The state of the ImageViewer relevant to the scheduler claims. -/
structure ViewerState where
  currentLayoutMode : LayoutMode
  transitionInProgress : Bool
  cooldownActive : Bool
  landscapeLock : Option Nat
  landscapeLockTime : Option Int
  landscapeLockStage : Option LockStage
  landscapeQueue : List String
  lastLandscapeSlot : Option Nat
  lastPreemptionTime : Int
  dedicatedSlotEnabled : Bool
  acquiringLock : Bool
  forceReleaseTimer : Option Nat
  landscapePreviewPending : Bool
  pendingTasks : Nat → Option String
  pendingTrigger : Option Nat
  numSlots : Nat
  imageFiles : List String
  favoritesList : List String
  currentImages : List String
  pinned : Nat → Bool
  slotImagePath : Nat → String
  timers : Nat → Timer
  portraitTimerStates : List SavedTimerState
  landscapeSourceSlotIndex : Int

/-- self.landscape_lock_timeout = 15000. -/
def landscapeLockTimeout : Int := 15000

/-- self.preemption_cooldown = 5000. -/
def preemptionCooldown : Int := 5000

/-- self.preview_stage_duration = 2000. -/
def previewStageDuration : Int := 2000

/-- self.cooldown_duration = 3000. -/
def cooldownDuration : Int := 3000

/-- The empty string used as the initial / out-of-range image path. -/
def emptyPath : String := ""

/-- Pointwise update of a function out of Nat. -/
def updateFn {α : Type} (f : Nat → α) (j : Nat) (v : α) : Nat → α :=
  fun i => if i = j then v else f i

/-- QTimer.stop() on the rotation timer of slot i. -/
def stopTimer (s : ViewerState) (i : Nat) : ViewerState :=
  { s with timers := updateFn s.timers i { active := false, remaining := 0 } }

/-- QTimer.start(interval) on the rotation timer of slot i. -/
def startTimer (s : ViewerState) (i : Nat) (interval : Int) : ViewerState :=
  { s with timers := updateFn s.timers i { active := true, remaining := interval } }

/-- ImageViewer._cancel_pending_task. -/
def cancelPendingTask (s : ViewerState) (slotIndex : Nat) : ViewerState :=
  { s with pendingTasks := updateFn s.pendingTasks slotIndex none }

/-- ImageViewer._schedule_landscape_switch: cancel any pending task for the
slot, then record a freshly scheduled delayed switch carrying the image. -/
def scheduleLandscapeSwitch (s : ViewerState) (slotIndex : Nat) (imagePath : String) : ViewerState :=
  let s1 := cancelPendingTask s slotIndex
  { s1 with pendingTasks := updateFn s1.pendingTasks slotIndex (some imagePath) }

/-- ImageViewer.is_portrait_image: height >= width, i.e. not landscape
(both classifiers read the same pixel dimensions and default to portrait on
failure). -/
def isPortraitImg (env : Env) (img : String) : Bool :=
  !env.isLandscapeImg img

/-- ImageViewer.get_random_portrait_image. -/
def getRandomPortraitImage (env : Env) (s : ViewerState) (exclude : List String) : Option String :=
  let pool := (s.imageFiles.filter (fun img => isPortraitImg env img)).filter
      (fun img => !exclude.contains img)
  if pool.isEmpty then none else some (env.choice pool)

/-- ImageViewer.force_slot_to_portrait. -/
def forceSlotToPortrait (env : Env) (s : ViewerState) (slotIndex : Nat) : ViewerState :=
  let s1 := cancelPendingTask s slotIndex
  match getRandomPortraitImage env s1 s1.currentImages with
  | some img =>
      let s2 := { s1 with currentImages := s1.currentImages.set slotIndex img }
      if env.loadOk img then
        let s3 := { s2 with slotImagePath := updateFn s2.slotImagePath slotIndex img }
        stopTimer s3 slotIndex
      else s2
  | none => s1

/-- ImageViewer._grant_lock: cancel any previous force-release watchdog, take
the lock in preview stage, remember the holder as the last landscape slot and
arm a fresh 15000 ms watchdog for it. -/
def grantLock (s : ViewerState) (nowMs : Int) (slotIndex : Nat) : ViewerState :=
  { s with forceReleaseTimer := some slotIndex,
           landscapeLock := some slotIndex,
           landscapeLockTime := some nowMs,
           landscapeLockStage := some LockStage.preview,
           lastLandscapeSlot := some slotIndex }

/-- ImageViewer._can_preempt. -/
def canPreempt (s : ViewerState) (nowMs : Int) (slotIndex : Nat) : Bool :=
  if ¬ (slotIndex = 0 ∧ s.dedicatedSlotEnabled = true) then false
  else if nowMs - s.lastPreemptionTime < preemptionCooldown then false
  else if s.landscapeLock = some 0 then false
  else if ¬ s.landscapeLockStage = some LockStage.preview then false
  else if nowMs - s.landscapeLockTime.getD 0 ≥ previewStageDuration then false
  else true

/-- ImageViewer._preempt_lock: force the preempted slot back to a portrait
item, record the preemption time, cancel the preempted slot's pending task
and grant the lock to the new slot. -/
def preemptLock (env : Env) (s : ViewerState) (nowMs : Int) (preempted slotIndex : Nat) :
    ViewerState :=
  let s1 := if preempted < s.numSlots then forceSlotToPortrait env s preempted else s
  let s2 := { s1 with lastPreemptionTime := nowMs }
  let s3 := cancelPendingTask s2 preempted
  grantLock s3 nowMs slotIndex

/-- ImageViewer.acquire_landscape_lock.  Returns the Python return value and
the state after the call. -/
def acquireLandscapeLock (env : Env) (s : ViewerState) (nowMs : Int) (slotIndex : Nat)
    (priority : Bool) : Bool × ViewerState :=
  if s.acquiringLock = true then (false, s)
  else if ¬ s.currentLayoutMode = LayoutMode.portrait ∨ s.transitionInProgress = true ∨
      some slotIndex = s.lastLandscapeSlot then (false, s)
  else
    match s.landscapeLock with
    | none => (true, grantLock s nowMs slotIndex)
    | some holder =>
        if priority = true ∧ canPreempt s nowMs slotIndex = true then
          (true, preemptLock env s nowMs holder slotIndex)
        else (false, s)

/-- Clearing of the lock fields shared by release_landscape_lock (watchdog
cancelled, holder/time/stage set to None). -/
def clearLock (s : ViewerState) : ViewerState :=
  { s with forceReleaseTimer := none,
           landscapeLock := none,
           landscapeLockTime := none,
           landscapeLockStage := none }

/-- ImageViewer.can_slot_use_global_queue. -/
def canSlotUseGlobalQueue (s : ViewerState) (slotIndex : Nat) : Bool :=
  if some slotIndex = s.lastLandscapeSlot then false
  else if slotIndex = 0 ∧ s.dedicatedSlotEnabled = true then false
  else true

/-- ImageViewer.process_landscape_queue: when the queue is non-empty and the
lock is free, schedule a quick update (QTimer.singleShot) for the first slot
that may use the global queue and is not pinned. -/
def processLandscapeQueue (s : ViewerState) : ViewerState :=
  if s.landscapeQueue.isEmpty = true ∨ ¬ s.landscapeLock = none then s
  else
    match (List.range s.numSlots).find? (fun i => canSlotUseGlobalQueue s i && !s.pinned i) with
    | some i => { s with pendingTrigger := some i }
    | none => s

/-- ImageViewer.release_landscape_lock. -/
def releaseLandscapeLock (s : ViewerState) (expectedHolder : Option Nat) : Bool × ViewerState :=
  match expectedHolder with
  | some e =>
      if ¬ s.landscapeLock = some e then (false, s)
      else (true, processLandscapeQueue (clearLock s))
  | none => (true, processLandscapeQueue (clearLock s))

/-- ImageViewer.force_release_lock. -/
def forceReleaseLock (env : Env) (s : ViewerState) (originalHolder : Nat) : ViewerState :=
  if s.landscapeLock = some originalHolder then
    let s1 :=
      if originalHolder < s.numSlots then
        let s2 := forceSlotToPortrait env s originalHolder
        if originalHolder < s2.numSlots ∧ ¬ s2.pinned originalHolder = true then
          startTimer s2 originalHolder (env.interval originalHolder)
        else s2
      else s
    { s1 with forceReleaseTimer := none,
              landscapeLock := none,
              landscapeLockTime := none,
              landscapeLockStage := none,
              landscapePreviewPending := false }
  else s

/-- ImageViewer.check_lock_timeout, fired every 1000 ms. -/
def checkLockTimeout (env : Env) (s : ViewerState) (nowMs : Int) : ViewerState :=
  match s.landscapeLock, s.landscapeLockTime with
  | some holder, some t =>
      if nowMs - t > landscapeLockTimeout then forceReleaseLock env s holder else s
  | some _, none => s
  | none, _ => s

/-- Tail of change_single_image: display the finally selected image (when the
pixmap loads) and restart the slot's rotation timer with a fresh random
portrait interval. -/
def displayAndRestart (env : Env) (s : ViewerState) (index : Nat) (newImage : Option String) :
    ViewerState :=
  let s1 :=
    match newImage with
    | some img =>
        if env.loadOk img then { s with slotImagePath := updateFn s.slotImagePath index img }
        else s
    | none => s
  startTimer s1 index (env.interval index)

/-- Preview flow shared by the acquire-success branches of change_single_image:
set the preview-pending flag, show the image in the slot, schedule the delayed
landscape switch and stop the slot's rotation timer. -/
def previewFlow (env : Env) (s : ViewerState) (index : Nat) (img : String) : ViewerState :=
  let s1 := { s with landscapePreviewPending := true }
  let s2 :=
    if env.loadOk img then { s1 with slotImagePath := updateFn s1.slotImagePath index img }
    else s1
  let s3 := scheduleLandscapeSwitch s2 index img
  stopTimer s3 index

/-- The portrait fallback at the end of the lock-denied landscape branch of
change_single_image: redraw a random portrait image for the slot (keeping the
landscape pick when no portrait candidate exists), display it and restart the
timer. -/
def portraitRedraw (env : Env) (s : ViewerState) (index : Nat) (newImage : String) :
    ViewerState :=
  match getRandomPortraitImage env s s.currentImages with
  | some pImg =>
      displayAndRestart env { s with currentImages := s.currentImages.set index pImg }
        index (some pImg)
  | none => displayAndRestart env s index (some newImage)

/-- Step 2 of change_single_image for a normal slot: draw a random fresh image,
route a landscape pick through the lock (enqueueing it and falling back to a
portrait redraw on denial), then display and restart the timer. -/
def normalStep2 (env : Env) (s : ViewerState) (nowMs : Int) (index : Nat) : ViewerState :=
  let avail0 := s.imageFiles.filter (fun img => !s.currentImages.contains img)
  let avail :=
    if avail0.isEmpty then
      s.imageFiles.filter (fun img => !(img = s.currentImages.getD index emptyPath))
    else avail0
  if avail.isEmpty then startTimer s index (env.interval index)
  else
    let newImage := env.choice avail
    let s1 := { s with currentImages := s.currentImages.set index newImage }
    if env.isLandscapeImg newImage then
      let r := acquireLandscapeLock env s1 nowMs index false
      if r.1 = true then previewFlow env r.2 index newImage
      else
        let s3 :=
          if s1.landscapeQueue.length < 5 then
            { s1 with landscapeQueue := s1.landscapeQueue ++ [newImage] }
          else s1
        portraitRedraw env s3 index newImage
    else displayAndRestart env s1 index (some newImage)

/-- Dedicated-slot branch of change_single_image (index 0, dedicated slot
enabled, favorites present). -/
def dedicatedBranch (env : Env) (s : ViewerState) (nowMs : Int) (index : Nat) : ViewerState :=
  let avail0 := s.favoritesList.filter (fun img => !s.currentImages.contains img)
  let avail :=
    if avail0.isEmpty then
      s.favoritesList.filter (fun img => !(img = s.currentImages.getD index emptyPath))
    else avail0
  if avail.isEmpty then startTimer s index (env.interval index)
  else
    let newImage := env.choice avail
    let s1 := { s with currentImages := s.currentImages.set index newImage }
    if env.isLandscapeImg newImage then
      let r := acquireLandscapeLock env s1 nowMs 0 true
      if r.1 = true then previewFlow env r.2 index newImage
      else
        let pImgs := avail.filter (fun img => isPortraitImg env img)
        if pImgs.isEmpty then displayAndRestart env s1 index (some newImage)
        else
          let pImg := env.choice pImgs
          displayAndRestart env { s1 with currentImages := s1.currentImages.set index pImg }
            index (some pImg)
    else displayAndRestart env s1 index (some newImage)

/-- ImageViewer.change_single_image: one rotation step for slot index. -/
def changeSingleImage (env : Env) (s : ViewerState) (nowMs : Int) (index : Nat) : ViewerState :=
  if s.numSlots ≤ index then s
  else if s.pinned index = true then startTimer s index (env.interval index)
  else if index = 0 ∧ s.dedicatedSlotEnabled = true ∧ ¬ s.favoritesList = [] then
    dedicatedBranch env s nowMs index
  else
    match s.landscapeQueue with
    | landscapeImg :: rest =>
        let sQ := { s with landscapeQueue := rest }
        if env.fileExists landscapeImg then
          let r := acquireLandscapeLock env sQ nowMs index false
          if r.1 = true then
            let s2 := { r.2 with currentImages := r.2.currentImages.set index landscapeImg }
            previewFlow env s2 index landscapeImg
          else normalStep2 env s nowMs index
        else normalStep2 env sQ nowMs index
    | [] => normalStep2 env s nowMs index

/-- ImageViewer.trigger_slot_update: stop the slot's timer and restart it with
a 100 ms interval so that change_single_image fires almost immediately. -/
def triggerSlotUpdate (s : ViewerState) (slotIndex : Nat) : ViewerState :=
  if slotIndex < s.numSlots then startTimer { s with pendingTrigger := none } slotIndex 100
  else s

/-- Snapshot of all portrait rotation timers taken when entering landscape
mode (the save loop of switch_to_landscape_mode_with_image). -/
def snapshotTimerStates (s : ViewerState) : List SavedTimerState :=
  (List.range s.numSlots).map (fun i =>
    let t := s.timers i
    { index := i,
      remaining := max (if t.active then t.remaining else 0) 1000,
      wasActive := t.active,
      currentImage := s.currentImages.getD i emptyPath })

/-- Stop of every portrait rotation timer (the stop half of the save loop). -/
def stopAllTimers (s : ViewerState) : ViewerState :=
  { s with timers := fun i =>
      if i < s.numSlots then { active := false, remaining := 0 } else s.timers i }

/-- ImageViewer.complete_landscape_transition: switch the layout to landscape,
start the single-shot dwell timer, start the mode-switch cooldown and clear
the transition flag. -/
def completeLandscapeTransition (s : ViewerState) : ViewerState :=
  { s with currentLayoutMode := LayoutMode.landscape,
           cooldownActive := true,
           transitionInProgress := false }

/-- ImageViewer.start_landscape_transition_animation: show the image in the
source slot, then complete the transition. -/
def startLandscapeTransitionAnimation (env : Env) (s : ViewerState) (imagePath : String)
    (sourceSlotIndex : Nat) : ViewerState :=
  let s1 :=
    if env.loadOk imagePath then
      { s with slotImagePath := updateFn s.slotImagePath sourceSlotIndex imagePath }
    else s
  completeLandscapeTransition s1

/-- ImageViewer.switch_to_landscape_mode_with_image. -/
def switchToLandscapeModeWithImage (env : Env) (s : ViewerState) (imagePath : String)
    (sourceSlotIndex : Int) : ViewerState :=
  if s.transitionInProgress = true ∨ s.currentLayoutMode = LayoutMode.landscape then s
  else
    let s1 := { s with transitionInProgress := true,
                       landscapeSourceSlotIndex := sourceSlotIndex,
                       landscapePreviewPending := false }
    let s2 := { s1 with portraitTimerStates := snapshotTimerStates s1 }
    let s3 := stopAllTimers s2
    if 0 ≤ sourceSlotIndex ∧ sourceSlotIndex < (s3.numSlots : Int) then
      startLandscapeTransitionAnimation env s3 imagePath sourceSlotIndex.toNat
    else completeLandscapeTransition s3

/-- ImageViewer.delayed_landscape_switch: the deferred takeover callback. -/
def delayedLandscapeSwitch (env : Env) (s : ViewerState) (imagePath : String) (slotIndex : Nat) :
    ViewerState :=
  if ¬ s.landscapeLock = some slotIndex then s
  else if ¬ s.landscapeLockStage = some LockStage.preview then s
  else if s.numSlots ≤ slotIndex ∨ ¬ s.slotImagePath slotIndex = imagePath then
    (releaseLandscapeLock s (some slotIndex)).2
  else
    let s1 := { s with landscapePreviewPending := false }
    if ¬ s1.transitionInProgress = true ∧ s1.currentLayoutMode = LayoutMode.portrait then
      let s2 := { s1 with landscapeLockStage := some LockStage.playing }
      switchToLandscapeModeWithImage env s2 imagePath (Int.ofNat slotIndex)
    else
      let s2 := (releaseLandscapeLock s1 (some slotIndex)).2
      forceSlotToPortrait env s2 slotIndex

/-- ImageViewer._execute_delayed_landscape_switch: remove the task-bookkeeping
entry, then run the delayed switch. -/
def executeDelayedLandscapeSwitch (env : Env) (s : ViewerState) (slotIndex : Nat)
    (imagePath : String) : ViewerState :=
  delayedLandscapeSwitch env
    { s with pendingTasks := updateFn s.pendingTasks slotIndex none } imagePath slotIndex

/-- Restored timer value for one saved state (the body of the restore loop of
finalize_portrait_transition). -/
def restoreTimerValue (env : Env) (st : SavedTimerState) : Timer :=
  if st.wasActive then { active := true, remaining := max st.remaining 1000 }
  else { active := true, remaining := env.interval st.index }

/-- The restore loop of finalize_portrait_transition. -/
def restoreTimers (env : Env) (numSlots : Nat) (timers : Nat → Timer)
    (states : List SavedTimerState) : Nat → Timer :=
  states.foldl
    (fun ts st =>
      if st.index < numSlots then updateFn ts st.index (restoreTimerValue env st) else ts)
    timers

/-- The middle block of finalize_portrait_transition: update the slot that
triggered the landscape interlude (and the slot holding the lock, when
different), restarting their rotation timers. -/
def finalizeSourceRefresh (env : Env) (s2 : ViewerState) (nowMs : Int) : ViewerState :=
  if 0 ≤ s2.landscapeSourceSlotIndex ∧ s2.landscapeSourceSlotIndex < (s2.numSlots : Int) then
    let src := s2.landscapeSourceSlotIndex.toNat
    if some src = s2.landscapeLock then
      if ¬ s2.pinned src = true then
        let sA := changeSingleImage env s2 nowMs src
        startTimer sA src (env.interval src)
      else startTimer s2 src (env.interval src)
    else
      let sA := stopTimer s2 src
      let sB := changeSingleImage env sA nowMs src
      match s2.landscapeLock with
      | some l =>
          if l < sB.numSlots ∧ ¬ sB.pinned l = true then startTimer sB l (env.interval l)
          else sB
      | none => sB
  else
    match s2.landscapeLock with
    | some l =>
        if l < s2.numSlots then
          if ¬ s2.pinned l = true then startTimer s2 l (env.interval l) else s2
        else s2
    | none => s2

/-- Body of ImageViewer.finalize_portrait_transition up to (but not
including) the final release of the landscape lock. -/
def finalizeCore (env : Env) (s : ViewerState) (nowMs : Int) : ViewerState :=
  let s1 :=
    if ¬ s.portraitTimerStates.isEmpty = true ∧ s.portraitTimerStates.length = s.numSlots then
      { s with timers := restoreTimers env s.numSlots s.timers s.portraitTimerStates,
               portraitTimerStates := [] }
    else
      { s with timers := fun i =>
          if i < s.numSlots then { active := true, remaining := env.interval i } else s.timers i }
  let s2 := { s1 with transitionInProgress := false }
  let s3 := finalizeSourceRefresh env s2 nowMs
  let s4 := { s3 with timers := (fun i =>
      if i < s3.numSlots ∧ ¬ (s3.timers i).active = true ∧ ¬ s3.pinned i = true then
        { active := true, remaining := env.interval i }
      else s3.timers i) }
  { s4 with cooldownActive := true }

/-- ImageViewer.finalize_portrait_transition: restore the timers, refresh the
panes involved in the landscape interlude, restart the cooldown and finally
release the landscape lock if it is still held. -/
def finalizePortraitTransition (env : Env) (s : ViewerState) (nowMs : Int) : ViewerState :=
  let s5 := finalizeCore env s nowMs
  match s5.landscapeLock with
  | some l => (releaseLandscapeLock s5 (some l)).2
  | none => s5

/-- ImageViewer.complete_portrait_transition: switch the layout back to
portrait, then finalize. -/
def completePortraitTransition (env : Env) (s : ViewerState) (nowMs : Int) : ViewerState :=
  finalizePortraitTransition env { s with currentLayoutMode := LayoutMode.portrait } nowMs

/-- ImageViewer.switch_to_portrait_mode followed by its animation chain down
to finalize_portrait_transition. -/
def switchToPortraitMode (env : Env) (s : ViewerState) (nowMs : Int) : ViewerState :=
  if s.transitionInProgress = true ∨ s.currentLayoutMode = LayoutMode.portrait then s
  else completePortraitTransition env { s with transitionInProgress := true } nowMs

/-- Initial scheduler state built in ImageViewer.__init__ for a given pane
count and image catalog. -/
def initialState (n : Nat) (files : List String) : ViewerState :=
  { currentLayoutMode := LayoutMode.portrait,
    transitionInProgress := false,
    cooldownActive := false,
    landscapeLock := none,
    landscapeLockTime := none,
    landscapeLockStage := none,
    landscapeQueue := [],
    lastLandscapeSlot := none,
    lastPreemptionTime := 0,
    dedicatedSlotEnabled := false,
    acquiringLock := false,
    forceReleaseTimer := none,
    landscapePreviewPending := false,
    pendingTasks := fun _ => none,
    pendingTrigger := none,
    numSlots := n,
    imageFiles := files,
    favoritesList := [],
    currentImages := List.replicate n emptyPath,
    pinned := fun _ => false,
    slotImagePath := fun _ => emptyPath,
    timers := fun _ => { active := false, remaining := 0 },
    portraitTimerStates := [],
    landscapeSourceSlotIndex := -1 }

/-- An oracle with fixed, simple answers, used for concrete evaluations. -/
def sampleEnv : Env :=
  { isLandscapeImg := fun _ => false,
    fileExists := fun _ => true,
    loadOk := fun _ => true,
    choice := fun l => l.headD emptyPath,
    interval := fun _ => 3000 }

/-- A concrete state with pane 1 holding the lock in preview stage, the
dedicated slot enabled, used to witness the preemption theorem. -/
def preemptState : ViewerState :=
  { initialState 3 [] with
      landscapeLock := some 1,
      landscapeLockTime := some 10000,
      landscapeLockStage := some LockStage.preview,
      lastLandscapeSlot := some 1,
      forceReleaseTimer := some 1,
      dedicatedSlotEnabled := true,
      lastPreemptionTime := 0 }

/-- A sample image path. -/
def imgA : String := "a.jpg"

/-- A sample image path for a file that has been deleted from disk. -/
def imgGone : String := "gone.jpg"

/-- A sample portrait image path. -/
def imgP : String := "p.jpg"

/-- A sample landscape image path. -/
def imgW : String := "w.jpg"

/-- A concrete state with pane 1 holding the lock in Playing stage and its
slot still displaying the scheduled image: the stage re-validation of a late
takeover callback fails there. -/
def staleCallbackState : ViewerState :=
  { initialState 2 [] with
      landscapeLock := some 1,
      landscapeLockTime := some 0,
      landscapeLockStage := some LockStage.playing,
      lastLandscapeSlot := some 1,
      forceReleaseTimer := some 1,
      slotImagePath := updateFn (fun _ => emptyPath) 1 imgA }

/-- A concrete state with pane 0 holding the lock and one queued landscape
item, used to witness the release contract. -/
def releaseState : ViewerState :=
  { initialState 2 [] with
      landscapeLock := some 0,
      landscapeLockTime := some 0,
      landscapeLockStage := some LockStage.playing,
      lastLandscapeSlot := some 0,
      forceReleaseTimer := some 0,
      landscapeQueue := [imgW] }

/-- A fresh viewer state still inside the 3000 ms post-transition cooldown
window. -/
def cooldownState : ViewerState :=
  { initialState 2 [] with cooldownActive := true }

/-- An oracle whose filesystem lacks the file imgGone. -/
def missingFileEnv : Env :=
  { sampleEnv with fileExists := fun f => decide (¬ f = imgGone) }

/-- A two-pane state whose landscape queue holds one item whose file has been
deleted from disk, with one portrait image in the catalog. -/
def missingHeadState : ViewerState :=
  { initialState 2 [imgP] with landscapeQueue := [imgGone] }

/-- A two-pane state with pane 0 holding the lock and the deleted file queued,
used to exhibit the queue-draining behaviour on release. -/
def drainState : ViewerState :=
  { initialState 2 [imgP] with
      landscapeLock := some 0,
      landscapeLockTime := some 0,
      landscapeLockStage := some LockStage.playing,
      lastLandscapeSlot := some 0,
      forceReleaseTimer := some 0,
      landscapeQueue := [imgGone] }

/-- A two-pane idle state whose landscape queue holds one existing landscape
file. -/
def queueHeadState : ViewerState :=
  { initialState 2 [imgP] with landscapeQueue := [imgW] }

/-- The safety-net pass at the end of finalize_portrait_transition: any
unpinned in-range pane whose timer is still inactive is restarted with a
fresh random interval. -/
def safetyNet (env : Env) (s3 : ViewerState) : ViewerState :=
  { s3 with timers := fun i =>
      if i < s3.numSlots ∧ ¬ (s3.timers i).active = true ∧ ¬ s3.pinned i = true then
        { active := true, remaining := env.interval i }
      else s3.timers i }

/-- State after the first k firings of the periodic 1000 ms timeout check,
when the check's timer is offset by phase milliseconds from the acquisition
instant t0: firing j runs check_lock_timeout at time t0 + phase + 1000·j. -/
def runTicks (env : Env) (s : ViewerState) (t0 phase : Int) : Nat → ViewerState
  | 0 => s
  | Nat.succ k => checkLockTimeout env (runTicks env s t0 phase k) (t0 + phase + 1000 * (k : Int))

/-- A two-pane state with pane 1 holding the lock acquired at time 0, used for
the timeout-recovery claims. -/
def tickState : ViewerState :=
  { initialState 2 [imgP] with
      landscapeLock := some 1,
      landscapeLockTime := some 0,
      landscapeLockStage := some LockStage.preview,
      lastLandscapeSlot := some 1,
      forceReleaseTimer := some 1 }

/-- The same state with the holding pane pinned. -/
def pinnedTickState : ViewerState :=
  { tickState with pinned := fun i => decide (i = 1) }

/-- A two-pane state in a takeover (pane 1 holds the lock in Playing stage,
its rotation timer stopped, pane 0 mid-rotation with 7000 ms left), used to
witness the snapshot round-trip. -/
def cycleState : ViewerState :=
  { initialState 2 [imgP] with
      landscapeLock := some 1,
      landscapeLockTime := some 0,
      landscapeLockStage := some LockStage.playing,
      lastLandscapeSlot := some 1,
      forceReleaseTimer := some 1,
      timers := fun i => if i = 0 then { active := true, remaining := 7000 }
        else { active := false, remaining := 0 } }

/-- One scheduler event: every code path that can mutate the shared lock
state, together with the user-interaction toggles. -/
inductive Step : ViewerState → ViewerState → Prop where
  | acquire (env : Env) (s : ViewerState) (nowMs : Int) (slot : Nat) (priority : Bool) :
      Step s (acquireLandscapeLock env s nowMs slot priority).2
  | release (s : ViewerState) (expected : Option Nat) :
      Step s (releaseLandscapeLock s expected).2
  | forceRelease (env : Env) (s : ViewerState) (holder : Nat) :
      Step s (forceReleaseLock env s holder)
  | timeoutTick (env : Env) (s : ViewerState) (nowMs : Int) :
      Step s (checkLockTimeout env s nowMs)
  | delayedSwitch (env : Env) (s : ViewerState) (slot : Nat) (img : String) :
      Step s (executeDelayedLandscapeSwitch env s slot img)
  | rotate (env : Env) (s : ViewerState) (nowMs : Int) (index : Nat) :
      Step s (changeSingleImage env s nowMs index)
  | drainTrigger (s : ViewerState) (slot : Nat) :
      Step s (triggerSlotUpdate s slot)
  | revert (env : Env) (s : ViewerState) (nowMs : Int) :
      Step s (switchToPortraitMode env s nowMs)
  | takeover (env : Env) (s : ViewerState) (img : String) (src : Int) :
      Step s (switchToLandscapeModeWithImage env s img src)
  | setDedicated (s : ViewerState) (b : Bool) :
      Step s { s with dedicatedSlotEnabled := b }
  | setFavorites (s : ViewerState) (l : List String) :
      Step s { s with favoritesList := l }
  | togglePin (s : ViewerState) (i : Nat) :
      Step s { s with pinned := updateFn s.pinned i (!s.pinned i) }

/-- States reachable from a fresh viewer through scheduler events. -/
inductive Reachable : ViewerState → Prop where
  | init (n : Nat) (files : List String) : Reachable (initialState n files)
  | step {s t : ViewerState} : Reachable s → Step s t → Reachable t

/-- The part of the state read by acquire_landscape_lock together with the
fields it may write. -/
def lockView (s : ViewerState) :
    Bool × LayoutMode × Bool × Option Nat × Option Nat × Option LockStage × Option Int ×
      Bool × Int :=
  (s.acquiringLock, s.currentLayoutMode, s.transitionInProgress, s.lastLandscapeSlot,
   s.landscapeLock, s.landscapeLockStage, s.landscapeLockTime, s.dedicatedSlotEnabled,
   s.lastPreemptionTime)

/-- Holder, stage and last-holder: the fields the lock invariants talk about. -/
def lockCore (s : ViewerState) : Option Nat × Option LockStage × Option Nat :=
  (s.landscapeLock, s.landscapeLockStage, s.lastLandscapeSlot)

/-- How one scheduler event may move the lock fields: unchanged, released,
granted to a fresh pane, or promoted from preview to playing. -/
def LockEvo (s t : ViewerState) : Prop :=
  (t.landscapeLock = s.landscapeLock ∧ t.landscapeLockStage = s.landscapeLockStage ∧
     t.lastLandscapeSlot = s.lastLandscapeSlot) ∨
  (t.landscapeLock = none ∧ t.landscapeLockStage = none ∧
     (t.lastLandscapeSlot = s.lastLandscapeSlot ∨
       ∃ p, t.lastLandscapeSlot = some p ∧ ¬ s.lastLandscapeSlot = some p)) ∨
  (∃ p, t.landscapeLock = some p ∧ t.landscapeLockStage = some LockStage.preview ∧
     t.lastLandscapeSlot = some p ∧ ¬ s.lastLandscapeSlot = some p ∧
     (s.landscapeLock = none ∨ s.landscapeLockStage = some LockStage.preview)) ∨
  (∃ p, s.landscapeLock = some p ∧ s.landscapeLockStage = some LockStage.preview ∧
     t.landscapeLock = some p ∧ t.landscapeLockStage = some LockStage.playing ∧
     t.lastLandscapeSlot = s.lastLandscapeSlot)

lemma lockEvo_refl (s : ViewerState) : LockEvo s s :=
  Or.inl ⟨rfl, rfl, rfl⟩

lemma lockEvo_congr_left {s s1 t : ViewerState} (h : lockCore s1 = lockCore s)
    (he : LockEvo s1 t) : LockEvo s t := by
  have h1 : s1.landscapeLock = s.landscapeLock := congrArg Prod.fst h
  have h2 : s1.landscapeLockStage = s.landscapeLockStage :=
    congrArg (fun x => x.2.1) h
  have h3 : s1.lastLandscapeSlot = s.lastLandscapeSlot :=
    congrArg (fun x => x.2.2) h
  unfold LockEvo at he ⊢
  rw [h1, h2, h3] at he
  exact he

lemma lockEvo_congr_right {s t t1 : ViewerState} (h : lockCore t1 = lockCore t)
    (he : LockEvo s t) : LockEvo s t1 := by
  have h1 : t1.landscapeLock = t.landscapeLock := congrArg Prod.fst h
  have h2 : t1.landscapeLockStage = t.landscapeLockStage :=
    congrArg (fun x => x.2.1) h
  have h3 : t1.lastLandscapeSlot = t.lastLandscapeSlot :=
    congrArg (fun x => x.2.2) h
  unfold LockEvo at he ⊢
  rw [h1, h2, h3]
  exact he

lemma lockView_stopTimer (s : ViewerState) (i : Nat) :
    lockView (stopTimer s i) = lockView s := rfl

lemma lockView_startTimer (s : ViewerState) (i : Nat) (v : Int) :
    lockView (startTimer s i v) = lockView s := rfl

lemma lockView_forceSlotToPortrait (env : Env) (s : ViewerState) (i : Nat) :
    lockView (forceSlotToPortrait env s i) = lockView s := by
  unfold lockView
  simp only [forceSlotToPortrait]
  (repeat' split) <;> rfl

lemma lockView_previewFlow (env : Env) (s : ViewerState) (i : Nat) (img : String) :
    lockView (previewFlow env s i img) = lockView s := by
  unfold lockView
  simp only [previewFlow]
  (repeat' split) <;> rfl

lemma lockView_displayAndRestart (env : Env) (s : ViewerState) (i : Nat)
    (img : Option String) : lockView (displayAndRestart env s i img) = lockView s := by
  unfold lockView
  simp only [displayAndRestart]
  (repeat' split) <;> rfl

lemma lockView_processLandscapeQueue (s : ViewerState) :
    lockView (processLandscapeQueue s) = lockView s := by
  unfold lockView
  simp only [processLandscapeQueue]
  (repeat' split) <;> rfl

lemma lockView_triggerSlotUpdate (s : ViewerState) (i : Nat) :
    lockView (triggerSlotUpdate s i) = lockView s := by
  unfold lockView
  simp only [triggerSlotUpdate]
  (repeat' split) <;> rfl

lemma lockCore_switchToLandscapeModeWithImage (env : Env) (s : ViewerState) (img : String)
    (src : Int) : lockCore (switchToLandscapeModeWithImage env s img src) = lockCore s := by
  unfold lockCore
  simp only [switchToLandscapeModeWithImage, startLandscapeTransitionAnimation,
    completeLandscapeTransition, stopAllTimers]
  (repeat' split) <;> rfl

lemma lockView_portraitRedraw (env : Env) (s : ViewerState) (i : Nat) (img : String) :
    lockView (portraitRedraw env s i img) = lockView s := by
  simp only [portraitRedraw]
  (repeat' split) <;> rw [lockView_displayAndRestart] <;> unfold lockView <;> rfl

lemma lockCore_of_lockView {s t : ViewerState} (h : lockView t = lockView s) :
    lockCore t = lockCore s := by
  have h1 : t.lastLandscapeSlot = s.lastLandscapeSlot :=
    congrArg (fun x => x.2.2.2.1) h
  have h2 : t.landscapeLock = s.landscapeLock :=
    congrArg (fun x => x.2.2.2.2.1) h
  have h3 : t.landscapeLockStage = s.landscapeLockStage :=
    congrArg (fun x => x.2.2.2.2.2.1) h
  unfold lockCore
  rw [h1, h2, h3]

lemma lock_eq_of_lockCore {s t : ViewerState} (h : lockCore t = lockCore s) :
    t.landscapeLock = s.landscapeLock := congrArg Prod.fst h

lemma stage_eq_of_lockCore {s t : ViewerState} (h : lockCore t = lockCore s) :
    t.landscapeLockStage = s.landscapeLockStage := congrArg (fun x => x.2.1) h

lemma last_eq_of_lockCore {s t : ViewerState} (h : lockCore t = lockCore s) :
    t.lastLandscapeSlot = s.lastLandscapeSlot := congrArg (fun x => x.2.2) h

@[simp] lemma forceSlotToPortrait_lock (env : Env) (s : ViewerState) (i : Nat) :
    (forceSlotToPortrait env s i).landscapeLock = s.landscapeLock :=
  lock_eq_of_lockCore (lockCore_of_lockView (lockView_forceSlotToPortrait env s i))

@[simp] lemma forceSlotToPortrait_stage (env : Env) (s : ViewerState) (i : Nat) :
    (forceSlotToPortrait env s i).landscapeLockStage = s.landscapeLockStage :=
  stage_eq_of_lockCore (lockCore_of_lockView (lockView_forceSlotToPortrait env s i))

@[simp] lemma forceSlotToPortrait_last (env : Env) (s : ViewerState) (i : Nat) :
    (forceSlotToPortrait env s i).lastLandscapeSlot = s.lastLandscapeSlot :=
  last_eq_of_lockCore (lockCore_of_lockView (lockView_forceSlotToPortrait env s i))

@[simp] lemma previewFlow_lock (env : Env) (s : ViewerState) (i : Nat) (img : String) :
    (previewFlow env s i img).landscapeLock = s.landscapeLock :=
  lock_eq_of_lockCore (lockCore_of_lockView (lockView_previewFlow env s i img))

@[simp] lemma previewFlow_stage (env : Env) (s : ViewerState) (i : Nat) (img : String) :
    (previewFlow env s i img).landscapeLockStage = s.landscapeLockStage :=
  stage_eq_of_lockCore (lockCore_of_lockView (lockView_previewFlow env s i img))

@[simp] lemma previewFlow_last (env : Env) (s : ViewerState) (i : Nat) (img : String) :
    (previewFlow env s i img).lastLandscapeSlot = s.lastLandscapeSlot :=
  last_eq_of_lockCore (lockCore_of_lockView (lockView_previewFlow env s i img))

@[simp] lemma displayAndRestart_lock (env : Env) (s : ViewerState) (i : Nat)
    (img : Option String) : (displayAndRestart env s i img).landscapeLock = s.landscapeLock :=
  lock_eq_of_lockCore (lockCore_of_lockView (lockView_displayAndRestart env s i img))

@[simp] lemma displayAndRestart_stage (env : Env) (s : ViewerState) (i : Nat)
    (img : Option String) :
    (displayAndRestart env s i img).landscapeLockStage = s.landscapeLockStage :=
  stage_eq_of_lockCore (lockCore_of_lockView (lockView_displayAndRestart env s i img))

@[simp] lemma displayAndRestart_last (env : Env) (s : ViewerState) (i : Nat)
    (img : Option String) :
    (displayAndRestart env s i img).lastLandscapeSlot = s.lastLandscapeSlot :=
  last_eq_of_lockCore (lockCore_of_lockView (lockView_displayAndRestart env s i img))

@[simp] lemma processLandscapeQueue_lock (s : ViewerState) :
    (processLandscapeQueue s).landscapeLock = s.landscapeLock :=
  lock_eq_of_lockCore (lockCore_of_lockView (lockView_processLandscapeQueue s))

@[simp] lemma processLandscapeQueue_stage (s : ViewerState) :
    (processLandscapeQueue s).landscapeLockStage = s.landscapeLockStage :=
  stage_eq_of_lockCore (lockCore_of_lockView (lockView_processLandscapeQueue s))

@[simp] lemma processLandscapeQueue_last (s : ViewerState) :
    (processLandscapeQueue s).lastLandscapeSlot = s.lastLandscapeSlot :=
  last_eq_of_lockCore (lockCore_of_lockView (lockView_processLandscapeQueue s))

@[simp] lemma processLandscapeQueue_watchdog (s : ViewerState) :
    (processLandscapeQueue s).forceReleaseTimer = s.forceReleaseTimer := by
  unfold processLandscapeQueue
  (repeat' split) <;> rfl

@[simp] lemma processLandscapeQueue_time (s : ViewerState) :
    (processLandscapeQueue s).landscapeLockTime = s.landscapeLockTime := by
  unfold processLandscapeQueue
  (repeat' split) <;> rfl

@[simp] lemma processLandscapeQueue_mode (s : ViewerState) :
    (processLandscapeQueue s).currentLayoutMode = s.currentLayoutMode := by
  unfold processLandscapeQueue
  (repeat' split) <;> rfl

@[simp] lemma processLandscapeQueue_transition (s : ViewerState) :
    (processLandscapeQueue s).transitionInProgress = s.transitionInProgress := by
  unfold processLandscapeQueue
  (repeat' split) <;> rfl

@[simp] lemma forceSlotToPortrait_queue (env : Env) (s : ViewerState) (i : Nat) :
    (forceSlotToPortrait env s i).landscapeQueue = s.landscapeQueue := by
  simp only [forceSlotToPortrait]
  (repeat' split) <;> rfl

@[simp] lemma displayAndRestart_queue (env : Env) (s : ViewerState) (i : Nat)
    (img : Option String) : (displayAndRestart env s i img).landscapeQueue = s.landscapeQueue := by
  simp only [displayAndRestart]
  (repeat' split) <;> rfl

@[simp] lemma previewFlow_queue (env : Env) (s : ViewerState) (i : Nat) (img : String) :
    (previewFlow env s i img).landscapeQueue = s.landscapeQueue := by
  simp only [previewFlow]
  (repeat' split) <;> rfl

@[simp] lemma displayAndRestart_pend (env : Env) (s : ViewerState) (i : Nat)
    (img : Option String) : (displayAndRestart env s i img).pendingTasks = s.pendingTasks := by
  simp only [displayAndRestart]
  (repeat' split) <;> rfl

@[simp] lemma previewFlow_pend_self (env : Env) (s : ViewerState) (i : Nat) (img : String) :
    (previewFlow env s i img).pendingTasks i = some img := by
  simp only [previewFlow, scheduleLandscapeSwitch, cancelPendingTask, stopTimer]
  (repeat' split) <;> simp [updateFn]

lemma previewFlow_pend_ne (env : Env) (s : ViewerState) (i : Nat) (img : String)
    (j : Nat) (hj : ¬ j = i) :
    (previewFlow env s i img).pendingTasks j = s.pendingTasks j := by
  simp only [previewFlow, scheduleLandscapeSwitch, cancelPendingTask, stopTimer]
  (repeat' split) <;> simp [updateFn, hj]

@[simp] lemma forceSlotToPortrait_pend (env : Env) (s : ViewerState) (i : Nat) :
    (forceSlotToPortrait env s i).pendingTasks = updateFn s.pendingTasks i none := by
  simp only [forceSlotToPortrait, cancelPendingTask]
  (repeat' split) <;> rfl

lemma acquire_queue (env : Env) (s : ViewerState) (nowMs : Int) (i : Nat) (p : Bool) :
    (acquireLandscapeLock env s nowMs i p).2.landscapeQueue = s.landscapeQueue := by
  simp only [acquireLandscapeLock]
  (repeat' split) <;>
    simp [grantLock, preemptLock, cancelPendingTask,
      apply_ite (fun st : ViewerState => st.landscapeQueue)]

lemma acquire_pend (env : Env) (s : ViewerState) (nowMs : Int) (i : Nat) (p : Bool) (j : Nat) :
    (acquireLandscapeLock env s nowMs i p).2.pendingTasks j = s.pendingTasks j ∨
    (acquireLandscapeLock env s nowMs i p).2.pendingTasks j = none := by
  simp only [acquireLandscapeLock]
  (repeat' split) <;>
    first
      | exact Or.inl rfl
      | (dsimp only [grantLock, preemptLock, cancelPendingTask];
         (try simp only [forceSlotToPortrait_pend,
            apply_ite (fun st : ViewerState => st.pendingTasks)]);
         simp only [updateFn];
         split_ifs <;> (try simp [updateFn]) <;> tauto)

@[simp] lemma portraitRedraw_lock (env : Env) (s : ViewerState) (i : Nat) (img : String) :
    (portraitRedraw env s i img).landscapeLock = s.landscapeLock := by
  unfold portraitRedraw
  (repeat' split) <;> simp

@[simp] lemma portraitRedraw_stage (env : Env) (s : ViewerState) (i : Nat) (img : String) :
    (portraitRedraw env s i img).landscapeLockStage = s.landscapeLockStage := by
  unfold portraitRedraw
  (repeat' split) <;> simp

@[simp] lemma portraitRedraw_last (env : Env) (s : ViewerState) (i : Nat) (img : String) :
    (portraitRedraw env s i img).lastLandscapeSlot = s.lastLandscapeSlot := by
  unfold portraitRedraw
  (repeat' split) <;> simp

@[simp] lemma portraitRedraw_queue (env : Env) (s : ViewerState) (i : Nat) (img : String) :
    (portraitRedraw env s i img).landscapeQueue = s.landscapeQueue := by
  unfold portraitRedraw
  (repeat' split) <;> simp

@[simp] lemma portraitRedraw_pend (env : Env) (s : ViewerState) (i : Nat) (img : String) :
    (portraitRedraw env s i img).pendingTasks = s.pendingTasks := by
  unfold portraitRedraw
  (repeat' split) <;> simp

/-- Lock fields right after _grant_lock for a given slot and timestamp. -/
def GrantShape (t : ViewerState) (i : Nat) (nowMs : Int) : Prop :=
  t.landscapeLock = some i ∧ t.landscapeLockStage = some LockStage.preview ∧
  t.lastLandscapeSlot = some i ∧ t.landscapeLockTime = some nowMs

/-- Characterization of _can_preempt. -/
lemma canPreempt_iff (s : ViewerState) (nowMs : Int) (i : Nat) :
    canPreempt s nowMs i = true ↔
      (i = 0 ∧ s.dedicatedSlotEnabled = true ∧
       preemptionCooldown ≤ nowMs - s.lastPreemptionTime ∧
       ¬ s.landscapeLock = some 0 ∧ s.landscapeLockStage = some LockStage.preview ∧
       nowMs - s.landscapeLockTime.getD 0 < previewStageDuration) := by
  unfold canPreempt
  split_ifs with h1 h2 h3 h4 h5 <;> simp_all

/-- Every call of acquire_landscape_lock either denies and leaves the state
untouched, or returns true having granted the lock to a slot different from
the last landscape slot, starting from a free lock or a preview-stage one. -/
lemma acquire_cases (env : Env) (s : ViewerState) (nowMs : Int) (i : Nat) (p : Bool) :
    acquireLandscapeLock env s nowMs i p = (false, s) ∨
    ((acquireLandscapeLock env s nowMs i p).1 = true ∧
     ¬ some i = s.lastLandscapeSlot ∧
     (s.landscapeLock = none ∨ s.landscapeLockStage = some LockStage.preview) ∧
     GrantShape (acquireLandscapeLock env s nowMs i p).2 i nowMs) := by
  unfold acquireLandscapeLock
  by_cases h1 : s.acquiringLock = true
  · rw [if_pos h1]
    exact Or.inl rfl
  · rw [if_neg h1]
    by_cases h2 : ¬ s.currentLayoutMode = LayoutMode.portrait ∨ s.transitionInProgress = true ∨
        some i = s.lastLandscapeSlot
    · rw [if_pos h2]
      exact Or.inl rfl
    · rw [if_neg h2]
      have hlast : ¬ some i = s.lastLandscapeSlot := fun hc => h2 (Or.inr (Or.inr hc))
      cases hL : s.landscapeLock with
      | none => exact Or.inr ⟨rfl, hlast, Or.inl rfl, rfl, rfl, rfl, rfl⟩
      | some holder =>
          dsimp only
          by_cases hp : p = true ∧ canPreempt s nowMs i = true
          · rw [if_pos hp]
            have hstage := ((canPreempt_iff s nowMs i).mp hp.2).2.2.2.2.1
            exact Or.inr ⟨rfl, hlast, Or.inr hstage, rfl, rfl, rfl, rfl⟩
          · rw [if_neg hp]
            exact Or.inl rfl

lemma lockEvo_acquire (env : Env) (s : ViewerState) (nowMs : Int) (i : Nat) (p : Bool) :
    LockEvo s (acquireLandscapeLock env s nowMs i p).2 := by
  rcases acquire_cases env s nowMs i p with h | ⟨-, hlast, hfrom, hg⟩
  · rw [h]
    exact lockEvo_refl s
  · exact Or.inr (Or.inr (Or.inl ⟨i, hg.1, hg.2.1, hg.2.2.1, fun hc => hlast hc.symm, hfrom⟩))

lemma lockEvo_releaseAux (s : ViewerState) :
    LockEvo s (processLandscapeQueue (clearLock s)) := by
  refine Or.inr (Or.inl ⟨?_, ?_, Or.inl ?_⟩) <;> simp [clearLock]

lemma lockEvo_release (s : ViewerState) (expected : Option Nat) :
    LockEvo s (releaseLandscapeLock s expected).2 := by
  unfold releaseLandscapeLock
  cases expected with
  | none => exact lockEvo_releaseAux s
  | some e =>
      dsimp only
      split_ifs with h
      · exact lockEvo_releaseAux s
      · exact lockEvo_refl s

lemma forceReleaseLock_last (env : Env) (s : ViewerState) (holder : Nat) :
    (forceReleaseLock env s holder).lastLandscapeSlot = s.lastLandscapeSlot := by
  unfold forceReleaseLock
  split_ifs <;>
    simp [startTimer, apply_ite (fun st : ViewerState => st.lastLandscapeSlot)]

lemma lockEvo_forceRelease (env : Env) (s : ViewerState) (holder : Nat) :
    LockEvo s (forceReleaseLock env s holder) := by
  by_cases h : s.landscapeLock = some holder
  · refine Or.inr (Or.inl ⟨?_, ?_, Or.inl (forceReleaseLock_last env s holder)⟩) <;>
      · unfold forceReleaseLock
        rw [if_pos h]
  · unfold forceReleaseLock
    rw [if_neg h]
    exact lockEvo_refl s

lemma lockEvo_checkTimeout (env : Env) (s : ViewerState) (nowMs : Int) :
    LockEvo s (checkLockTimeout env s nowMs) := by
  unfold checkLockTimeout
  (repeat' split) <;> first
    | exact lockEvo_refl s
    | exact lockEvo_forceRelease env s _

lemma lockEvo_of_lockCore {s t : ViewerState} (h : lockCore t = lockCore s) : LockEvo s t :=
  Or.inl ⟨lock_eq_of_lockCore h, stage_eq_of_lockCore h, last_eq_of_lockCore h⟩

lemma lockEvo_previewAcquire (env : Env) (s s1 : ViewerState) (nowMs : Int) (j i : Nat)
    (p : Bool) (img : String) (hpre : lockCore s1 = lockCore s) :
    LockEvo s (previewFlow env (acquireLandscapeLock env s1 nowMs j p).2 i img) :=
  lockEvo_congr_right (lockCore_of_lockView (lockView_previewFlow _ _ _ _))
    (lockEvo_congr_left hpre (lockEvo_acquire _ _ _ _ _))

lemma lockEvo_previewAcquireSet (env : Env) (s s1 : ViewerState) (nowMs : Int) (j i k : Nat)
    (p : Bool) (img img2 : String) (hpre : lockCore s1 = lockCore s) :
    LockEvo s (previewFlow env
      { (acquireLandscapeLock env s1 nowMs j p).2 with
        currentImages := (acquireLandscapeLock env s1 nowMs j p).2.currentImages.set k img2 }
      i img) :=
  lockEvo_congr_right (by simp [lockCore])
    (lockEvo_congr_left hpre (lockEvo_acquire env s1 nowMs j p))

lemma lockEvo_normalStep2 (env : Env) (s : ViewerState) (nowMs : Int) (i : Nat) :
    LockEvo s (normalStep2 env s nowMs i) := by
  simp only [normalStep2]
  split_ifs with h1 h2 h3 h4 <;>
    first
      | exact lockEvo_previewAcquire _ _ _ _ _ _ _ _ (by simp [lockCore])
      | (split <;> exact lockEvo_of_lockCore (by simp [lockCore, startTimer]))
      | exact lockEvo_of_lockCore (by simp [lockCore, startTimer])

lemma lockEvo_dedicatedBranch (env : Env) (s : ViewerState) (nowMs : Int) (i : Nat) :
    LockEvo s (dedicatedBranch env s nowMs i) := by
  simp only [dedicatedBranch]
  split_ifs with h1 h2 h3 h4 <;>
    first
      | exact lockEvo_previewAcquire _ _ _ _ _ _ _ _ (by simp [lockCore])
      | exact lockEvo_of_lockCore (by simp [lockCore, startTimer])

lemma lockEvo_changeSingleImage (env : Env) (s : ViewerState) (nowMs : Int) (i : Nat) :
    LockEvo s (changeSingleImage env s nowMs i) := by
  simp only [changeSingleImage]
  split_ifs with h1 h2 h3 <;>
    first
      | exact lockEvo_refl s
      | exact lockEvo_dedicatedBranch _ _ _ _
      | exact lockEvo_normalStep2 _ _ _ _
      | (split <;>
          first
            | exact lockEvo_normalStep2 _ _ _ _
            | (split_ifs <;>
                first
                  | exact lockEvo_previewAcquireSet _ _ _ _ _ _ _ _ _ _ (by simp [lockCore])
                  | exact lockEvo_normalStep2 _ _ _ _
                  | exact lockEvo_congr_left (by simp [lockCore]) (lockEvo_normalStep2 _ _ _ _)))
      | exact lockEvo_of_lockCore (by simp [lockCore, startTimer])

@[simp] lemma switchToLandscape_lock (env : Env) (s : ViewerState) (img : String) (src : Int) :
    (switchToLandscapeModeWithImage env s img src).landscapeLock = s.landscapeLock :=
  lock_eq_of_lockCore (lockCore_switchToLandscapeModeWithImage env s img src)

@[simp] lemma switchToLandscape_stage (env : Env) (s : ViewerState) (img : String) (src : Int) :
    (switchToLandscapeModeWithImage env s img src).landscapeLockStage = s.landscapeLockStage :=
  stage_eq_of_lockCore (lockCore_switchToLandscapeModeWithImage env s img src)

@[simp] lemma switchToLandscape_last (env : Env) (s : ViewerState) (img : String) (src : Int) :
    (switchToLandscapeModeWithImage env s img src).lastLandscapeSlot = s.lastLandscapeSlot :=
  last_eq_of_lockCore (lockCore_switchToLandscapeModeWithImage env s img src)

lemma lockEvo_delayedSwitch (env : Env) (s : ViewerState) (img : String) (slot : Nat) :
    LockEvo s (delayedLandscapeSwitch env s img slot) := by
  unfold delayedLandscapeSwitch
  by_cases h1 : s.landscapeLock = some slot
  case neg =>
    rw [if_pos h1]
    exact lockEvo_refl s
  rw [if_neg (not_not_intro h1)]
  by_cases h2 : s.landscapeLockStage = some LockStage.preview
  case neg =>
    rw [if_pos h2]
    exact lockEvo_refl s
  rw [if_neg (not_not_intro h2)]
  by_cases h3 : s.numSlots ≤ slot ∨ ¬ s.slotImagePath slot = img
  · rw [if_pos h3]
    exact lockEvo_release s (some slot)
  · rw [if_neg h3]
    dsimp only
    split_ifs with h4
    · refine Or.inr (Or.inr (Or.inr ⟨slot, h1, h2, ?_, ?_, ?_⟩)) <;> simp [h1, h2]
    · refine Or.inr (Or.inl ⟨?_, ?_, Or.inl ?_⟩) <;>
        simp [releaseLandscapeLock, clearLock, h1]

lemma lockEvo_executeDelayed (env : Env) (s : ViewerState) (slot : Nat) (img : String) :
    LockEvo s (executeDelayedLandscapeSwitch env s slot img) := by
  unfold executeDelayedLandscapeSwitch
  exact lockEvo_congr_left (by simp [lockCore]) (lockEvo_delayedSwitch _ _ _ _)

lemma lockEvo_then_release {s t : ViewerState} (he : LockEvo s t) :
    LockEvo s (match t.landscapeLock with
      | some l => (releaseLandscapeLock t (some l)).2
      | none => t) := by
  have hlast : t.lastLandscapeSlot = s.lastLandscapeSlot ∨
      ∃ p, t.lastLandscapeSlot = some p ∧ ¬ s.lastLandscapeSlot = some p := by
    rcases he with ⟨-, -, h⟩ | ⟨-, -, h⟩ | ⟨p, -, -, h, hne, -⟩ | ⟨p, -, -, -, -, h⟩
    · exact Or.inl h
    · exact h
    · exact Or.inr ⟨p, h, hne⟩
    · exact Or.inl h
  cases hL : t.landscapeLock with
  | none => simpa using he
  | some l =>
      dsimp only
      have hrel : (releaseLandscapeLock t (some l)).2 = processLandscapeQueue (clearLock t) := by
        unfold releaseLandscapeLock
        dsimp only
        rw [if_neg (not_not_intro hL)]
      rw [hrel]
      refine Or.inr (Or.inl ⟨?_, ?_, ?_⟩)
      · simp [clearLock]
      · simp [clearLock]
      · simpa [clearLock] using hlast

lemma lockEvo_wrapTimersCooldown {s X : ViewerState} (f : Nat → Timer) (b : Bool)
    (he : LockEvo s X) :
    LockEvo s { { X with timers := f } with cooldownActive := b } :=
  lockEvo_congr_right rfl he

lemma lockEvo_startTimerChange (env : Env) (s s2 : ViewerState) (nowMs : Int) (i j : Nat)
    (v : Int) (hpre : lockCore s2 = lockCore s) :
    LockEvo s (startTimer (changeSingleImage env s2 nowMs i) j v) :=
  lockEvo_congr_right (by simp [lockCore, startTimer])
    (lockEvo_congr_left hpre (lockEvo_changeSingleImage env s2 nowMs i))

lemma lockEvo_finalizeSourceRefresh (env : Env) (s : ViewerState) (nowMs : Int) :
    LockEvo s (finalizeSourceRefresh env s nowMs) := by
  simp only [finalizeSourceRefresh]
  split_ifs <;>
    first
      | exact lockEvo_refl s
      | exact lockEvo_startTimerChange _ _ _ _ _ _ _ (by simp [lockCore, stopTimer])
      | (split <;>
          first
            | exact lockEvo_refl s
            | exact lockEvo_startTimerChange _ _ _ _ _ _ _ (by simp [lockCore, stopTimer])
            | exact lockEvo_congr_left (by simp [lockCore, stopTimer])
                (lockEvo_changeSingleImage _ _ _ _)
            | (split_ifs <;>
                first
                  | exact lockEvo_startTimerChange _ _ _ _ _ _ _ (by simp [lockCore, stopTimer])
                  | exact lockEvo_congr_left (by simp [lockCore, stopTimer])
                      (lockEvo_changeSingleImage _ _ _ _)
                  | exact lockEvo_of_lockCore (by simp [lockCore, startTimer, stopTimer])))
      | exact lockEvo_of_lockCore (by simp [lockCore, startTimer, stopTimer])

lemma lockEvo_finalize (env : Env) (s : ViewerState) (nowMs : Int) :
    LockEvo s (finalizePortraitTransition env s nowMs) := by
  unfold finalizePortraitTransition
  refine lockEvo_then_release ?_
  unfold finalizeCore
  refine lockEvo_wrapTimersCooldown _ true ?_
  exact lockEvo_congr_left (by split_ifs <;> simp [lockCore])
    (lockEvo_finalizeSourceRefresh _ _ _)

lemma lockEvo_switchToPortraitMode (env : Env) (s : ViewerState) (nowMs : Int) :
    LockEvo s (switchToPortraitMode env s nowMs) := by
  unfold switchToPortraitMode completePortraitTransition
  split_ifs with h
  · exact lockEvo_refl s
  · exact lockEvo_congr_left (by simp [lockCore]) (lockEvo_finalize _ _ _)

/-- Master lemma: every scheduler event moves the lock fields in one of the
four allowed ways. -/
lemma step_lockEvo {s t : ViewerState} (h : Step s t) : LockEvo s t := by
  cases h with
  | acquire env s nowMs slot priority => exact lockEvo_acquire env s nowMs slot priority
  | release s expected => exact lockEvo_release s expected
  | forceRelease env s holder => exact lockEvo_forceRelease env s holder
  | timeoutTick env s nowMs => exact lockEvo_checkTimeout env s nowMs
  | delayedSwitch env s slot img => exact lockEvo_executeDelayed env s slot img
  | rotate env s nowMs index => exact lockEvo_changeSingleImage env s nowMs index
  | drainTrigger s slot =>
      exact lockEvo_of_lockCore (lockCore_of_lockView (lockView_triggerSlotUpdate s slot))
  | revert env s nowMs => exact lockEvo_switchToPortraitMode env s nowMs
  | takeover env s img src =>
      exact lockEvo_of_lockCore (lockCore_switchToLandscapeModeWithImage env s img src)
  | setDedicated s b => exact lockEvo_of_lockCore rfl
  | setFavorites s l => exact lockEvo_of_lockCore rfl
  | togglePin s i => exact lockEvo_of_lockCore rfl

/-- The holder/stage coupling invariant of the LandscapeLock singleton. -/
def LockConsistent (s : ViewerState) : Prop :=
  s.landscapeLock = none ↔ s.landscapeLockStage = none

lemma lockEvo_preserves_consistent {s t : ViewerState} (he : LockEvo s t)
    (hc : LockConsistent s) : LockConsistent t := by
  unfold LockConsistent at hc ⊢
  rcases he with ⟨h1, h2, -⟩ | ⟨h1, h2, -⟩ | ⟨p, h1, h2, -⟩ | ⟨p, -, -, h1, h2, -⟩ <;>
    simp [h1, h2, hc]

lemma reachable_consistent {s : ViewerState} (h : Reachable s) : LockConsistent s := by
  induction h with
  | init n files => simp [LockConsistent, initialState]
  | step hr hst ih => exact lockEvo_preserves_consistent (step_lockEvo hst) ih

/-- Allowed single-event stage movements: the stage never moves from Playing
back to Preview, and never jumps from None directly to Playing. -/
def StageStepOK : Option LockStage → Option LockStage → Prop
  | some LockStage.playing, some LockStage.preview => False
  | none, some LockStage.playing => False
  | _, _ => True

lemma stageStepOK_refl (x : Option LockStage) : StageStepOK x x := by
  cases x with
  | none => trivial
  | some v => cases v <;> trivial

lemma stageStepOK_none (x : Option LockStage) : StageStepOK x none := by
  cases x with
  | none => trivial
  | some v => cases v <;> trivial

lemma stageStepOK_of_lockEvo {s t : ViewerState} (he : LockEvo s t)
    (hc : LockConsistent s) :
    StageStepOK s.landscapeLockStage t.landscapeLockStage := by
  rcases he with ⟨-, h2, -⟩ | ⟨-, h2, -⟩ | ⟨p, -, h2, -, -, hfrom⟩ | ⟨p, h1, h2, -, h4, -⟩
  · rw [h2]
    exact stageStepOK_refl _
  · rw [h2]
    exact stageStepOK_none _
  · rw [h2]
    rcases hfrom with hnone | hprev
    · rw [hc.mp hnone]
      trivial
    · rw [hprev]
      trivial
  · rw [h2, h4]
    trivial

lemma canSlotUseGlobalQueue_iff (s : ViewerState) (i : Nat) :
    canSlotUseGlobalQueue s i = true ↔
      (¬ some i = s.lastLandscapeSlot ∧ ¬ (i = 0 ∧ s.dedicatedSlotEnabled = true)) := by
  unfold canSlotUseGlobalQueue
  split_ifs <;> simp_all

lemma normalStep2_queue (env : Env) (t : ViewerState) (nowMs : Int) (i : Nat)
    (hchoice : ∀ l : List String, ¬ l = [] → env.choice l ∈ l) :
    (normalStep2 env t nowMs i).landscapeQueue = t.landscapeQueue ∨
    ∃ x, x ∈ t.imageFiles ∧
      (normalStep2 env t nowMs i).landscapeQueue = t.landscapeQueue ++ [x] := by
  simp only [normalStep2]
  split_ifs with h1 h2 h3 h4
  all_goals try (solve
    | exact Or.inl rfl
    | (refine Or.inl ?_; simp [acquire_queue]))
  all_goals (
    refine Or.inr ⟨?_, ?_, ?_⟩
    rotate_left 2
    · rw [portraitRedraw_queue]
      exact rfl
    · refine List.mem_of_mem_filter (hchoice _ ?_)
      intro hc
      simp_all
      tauto)

lemma normalStep2_pend (env : Env) (t : ViewerState) (nowMs : Int) (i : Nat)
    (hchoice : ∀ l : List String, ¬ l = [] → env.choice l ∈ l) (j : Nat) :
    (normalStep2 env t nowMs i).pendingTasks j = t.pendingTasks j ∨
    (normalStep2 env t nowMs i).pendingTasks j = none ∨
    ∃ x, x ∈ t.imageFiles ∧ (normalStep2 env t nowMs i).pendingTasks j = some x := by
  simp only [normalStep2]
  split_ifs with h1 h2 h3 h4
  all_goals try (solve
    | exact Or.inl rfl
    | (refine Or.inl ?_; simp))
  all_goals (
    by_cases hj : j = i
    · subst hj
      refine Or.inr (Or.inr ⟨?_, ?_, ?_⟩)
      rotate_left 2
      · rw [previewFlow_pend_self]
        exact rfl
      · refine List.mem_of_mem_filter (hchoice _ ?_)
        intro hc
        simp_all
        tauto
    · rw [previewFlow_pend_ne _ _ _ _ _ hj]
      exact (acquire_pend env _ nowMs i false j).imp id Or.inl)

/-- C2: in every reachable scheduler state the lock holder is None iff the
stage is None, and at most one pane is the holder at any instant; moreover no
scheduler event ever moves the stage from Playing back to Preview (nor from
None straight to Playing), so within one lock episode the stage only advances
None to Preview to Playing to None, with the direct Preview-to-None abort
allowed. -/
theorem landscape_lock_invariants :
    (∀ s : ViewerState, Reachable s →
      ((s.landscapeLock = none ↔ s.landscapeLockStage = none) ∧
       ∀ p q : Nat, s.landscapeLock = some p → s.landscapeLock = some q → p = q)) ∧
    (∀ s t : ViewerState, Reachable s → Step s t →
      StageStepOK s.landscapeLockStage t.landscapeLockStage) := by
  constructor
  · intro s hs
    refine ⟨reachable_consistent hs, ?_⟩
    intro p q hp hq
    rw [hp] at hq
    exact Option.some.inj hq
  · intro s t hs hst
    exact stageStepOK_of_lockEvo (step_lockEvo hst) (reachable_consistent hs)

/-- Witness for the invariant theorem: the fresh two-pane viewer is reachable
and satisfies the holder/stage coupling, and the first acquire step obeys the
stage-advance discipline. -/
theorem landscape_lock_invariants_witness :
    (((initialState 2 []).landscapeLock = none ↔
        (initialState 2 []).landscapeLockStage = none) ∧
      ∀ p q : Nat, (initialState 2 []).landscapeLock = some p →
        (initialState 2 []).landscapeLock = some q → p = q) ∧
    StageStepOK (initialState 2 []).landscapeLockStage
      (acquireLandscapeLock sampleEnv (initialState 2 []) 0 0 false).2.landscapeLockStage :=
  ⟨landscape_lock_invariants.1 (initialState 2 []) (Reachable.init 2 []),
   landscape_lock_invariants.2 (initialState 2 []) _ (Reachable.init 2 [])
     (Step.acquire sampleEnv (initialState 2 []) 0 0 false)⟩

/-- C8: acquire_landscape_lock never grants to the pane recorded as the last
landscape holder and every grant records the granted pane as the new last
holder; no other scheduler event changes the recorded last holder except by
granting to a fresh pane, hence the panes of two consecutive successful
grants always differ. -/
theorem no_immediate_repeat_grant :
    (∀ (env : Env) (s : ViewerState) (nowMs : Int) (p : Nat) (priority : Bool),
       (acquireLandscapeLock env s nowMs p priority).1 = true →
       ¬ s.lastLandscapeSlot = some p ∧
       (acquireLandscapeLock env s nowMs p priority).2.lastLandscapeSlot = some p) ∧
    (∀ s t : ViewerState, Step s t →
       t.lastLandscapeSlot = s.lastLandscapeSlot ∨
       ∃ p, t.lastLandscapeSlot = some p ∧ ¬ s.lastLandscapeSlot = some p) := by
  constructor
  · intro env s nowMs p priority hok
    rcases acquire_cases env s nowMs p priority with h | ⟨-, hlast, -, hg⟩
    · rw [h] at hok
      simp at hok
    · exact ⟨fun hc => hlast hc.symm, hg.2.2.1⟩
  · intro s t hst
    rcases step_lockEvo hst with ⟨-, -, h⟩ | ⟨-, -, h⟩ | ⟨p, -, -, h1, h2, -⟩ | ⟨p, -, -, -, -, h⟩
    · exact Or.inl h
    · exact h
    · exact Or.inr ⟨p, h1, h2⟩
    · exact Or.inl h

/-- Witness for the no-immediate-repeat theorem: a concrete successful grant
to pane 1 on a fresh three-pane viewer. -/
theorem no_immediate_repeat_grant_witness :
    ((acquireLandscapeLock sampleEnv (initialState 3 []) 0 1 false).1 = true ∧
      (¬ (initialState 3 []).lastLandscapeSlot = some 1 ∧
       (acquireLandscapeLock sampleEnv (initialState 3 []) 0 1 false).2.lastLandscapeSlot =
         some 1)) ∧
    ((acquireLandscapeLock sampleEnv (initialState 3 []) 0 1 false).2.lastLandscapeSlot =
        (initialState 3 []).lastLandscapeSlot ∨
      ∃ p, (acquireLandscapeLock sampleEnv (initialState 3 []) 0 1 false).2.lastLandscapeSlot =
          some p ∧ ¬ (initialState 3 []).lastLandscapeSlot = some p) :=
  ⟨⟨by decide,
    no_immediate_repeat_grant.1 sampleEnv (initialState 3 []) 0 1 false (by decide)⟩,
   no_immediate_repeat_grant.2 (initialState 3 []) _
     (Step.acquire sampleEnv (initialState 3 []) 0 1 false)⟩

/-- C1: with the lock held and the basic gating satisfied, a priority acquire
returns true and preempts the holder (the lock moves to the caller and the
preemption time is stamped) iff the caller is the dedicated pane, at least
5000 ms have passed since the last successful preemption, the holder is not
the dedicated pane, the stage is Preview and strictly less than 2000 ms have
elapsed since acquiredAt; otherwise it returns false and leaves the state
unchanged. -/
theorem preemption_eligibility (env : Env) (s : ViewerState) (nowMs : Int)
    (slot h : Nat) (t : Int)
    (hheld : s.landscapeLock = some h) (htime : s.landscapeLockTime = some t)
    (hguard : s.acquiringLock = false) (hmode : s.currentLayoutMode = LayoutMode.portrait)
    (htrans : s.transitionInProgress = false) (hlast : ¬ some slot = s.lastLandscapeSlot) :
    ((acquireLandscapeLock env s nowMs slot true).1 = true ↔
      (slot = 0 ∧ s.dedicatedSlotEnabled = true ∧
       5000 ≤ nowMs - s.lastPreemptionTime ∧ ¬ h = 0 ∧
       s.landscapeLockStage = some LockStage.preview ∧ nowMs - t < 2000)) ∧
    ((acquireLandscapeLock env s nowMs slot true).1 = true →
      (acquireLandscapeLock env s nowMs slot true).2.landscapeLock = some slot ∧
      (acquireLandscapeLock env s nowMs slot true).2.lastPreemptionTime = nowMs) ∧
    ((acquireLandscapeLock env s nowMs slot true).1 = false →
      (acquireLandscapeLock env s nowMs slot true).2 = s) := by
  have hbasic : ¬ (¬ s.currentLayoutMode = LayoutMode.portrait ∨ s.transitionInProgress = true ∨
      some slot = s.lastLandscapeSlot) := by
    simp [hmode, htrans, hlast]
  have hred : acquireLandscapeLock env s nowMs slot true =
      (if canPreempt s nowMs slot = true then
        (true, preemptLock env s nowMs h slot) else (false, s)) := by
    unfold acquireLandscapeLock
    rw [if_neg (by simp [hguard]), if_neg hbasic, hheld]
    dsimp only
    by_cases hp : canPreempt s nowMs slot = true
    · rw [if_pos ⟨rfl, hp⟩, if_pos hp]
    · rw [if_neg (fun hc => hp hc.2), if_neg hp]
  have hchar : canPreempt s nowMs slot = true ↔
      (slot = 0 ∧ s.dedicatedSlotEnabled = true ∧ 5000 ≤ nowMs - s.lastPreemptionTime ∧
       ¬ h = 0 ∧ s.landscapeLockStage = some LockStage.preview ∧ nowMs - t < 2000) := by
    rw [canPreempt_iff]
    simp [hheld, htime, preemptionCooldown, previewStageDuration, and_assoc]
  rw [hred]
  by_cases hp : canPreempt s nowMs slot = true
  · rw [if_pos hp]
    refine ⟨?_, ?_, ?_⟩
    · simpa using (hchar.mp hp)
    · intro _
      exact ⟨rfl, rfl⟩
    · intro hfalse
      simp at hfalse
  · rw [if_neg hp]
    refine ⟨?_, ?_, ?_⟩
    · constructor
      · intro hc
        exact absurd hc (by simp)
      · intro hc
        exact absurd (hchar.mpr hc) hp
    · intro htrue
      simp at htrue
    · intro _
      rfl

/-- Witness for the preemption theorem: the dedicated pane 0 preempts pane 1
at 1000 ms into its preview, 11000 ms after the last preemption. -/
theorem preemption_eligibility_witness :
    (preemptState.landscapeLock = some 1 ∧ preemptState.landscapeLockTime = some 10000 ∧
     preemptState.acquiringLock = false ∧
     preemptState.currentLayoutMode = LayoutMode.portrait ∧
     preemptState.transitionInProgress = false ∧
     ¬ some 0 = preemptState.lastLandscapeSlot) ∧
    ((acquireLandscapeLock sampleEnv preemptState 11000 0 true).1 = true ↔
      (0 = 0 ∧ preemptState.dedicatedSlotEnabled = true ∧
       5000 ≤ (11000 : Int) - preemptState.lastPreemptionTime ∧ ¬ (1 : Nat) = 0 ∧
       preemptState.landscapeLockStage = some LockStage.preview ∧
       (11000 : Int) - 10000 < 2000)) :=
  ⟨⟨rfl, rfl, rfl, rfl, rfl, by decide⟩,
   (preemption_eligibility sampleEnv preemptState 11000 0 1 10000 rfl rfl rfl rfl rfl
      (by decide)).1⟩

/-- C3: release with a mismatching expected holder fails, returning false with
the whole state (holder, stage, acquiredAt, watchdog, queue and all) exactly
unchanged; a matching release returns true, cancels the watchdog and clears
holder, stage and acquiredAt, then attempts to drain one queued item by
triggering the first unpinned pane allowed to use the global queue, provided
the queue is non-empty and such a pane exists. -/
theorem release_lock_contract (s : ViewerState) (e : Nat) :
    (¬ s.landscapeLock = some e → releaseLandscapeLock s (some e) = (false, s)) ∧
    (s.landscapeLock = some e →
      (releaseLandscapeLock s (some e)).1 = true ∧
      (releaseLandscapeLock s (some e)).2.forceReleaseTimer = none ∧
      (releaseLandscapeLock s (some e)).2.landscapeLock = none ∧
      (releaseLandscapeLock s (some e)).2.landscapeLockStage = none ∧
      (releaseLandscapeLock s (some e)).2.landscapeLockTime = none ∧
      (¬ s.landscapeQueue = [] →
        (∃ i, i < s.numSlots ∧ canSlotUseGlobalQueue s i = true ∧ s.pinned i = false ∧
           (releaseLandscapeLock s (some e)).2.pendingTrigger = some i) ∨
        ((∀ i, i < s.numSlots → ¬ (canSlotUseGlobalQueue s i = true ∧ s.pinned i = false)) ∧
         (releaseLandscapeLock s (some e)).2.pendingTrigger = s.pendingTrigger))) := by
  constructor
  · intro hne
    unfold releaseLandscapeLock
    dsimp only
    rw [if_pos hne]
  · intro heq
    have hrel : releaseLandscapeLock s (some e) =
        (true, processLandscapeQueue (clearLock s)) := by
      unfold releaseLandscapeLock
      dsimp only
      rw [if_neg (not_not_intro heq)]
    rw [hrel]
    refine ⟨rfl, by simp [clearLock], by simp [clearLock], by simp [clearLock],
      by simp [clearLock], ?_⟩
    intro hq
    unfold processLandscapeQueue
    rw [if_neg (by simp [clearLock, hq])]
    cases hfind : (List.range (clearLock s).numSlots).find?
        (fun i => canSlotUseGlobalQueue (clearLock s) i && !(clearLock s).pinned i) with
    | some i =>
        left
        have hmem := List.mem_of_find?_eq_some hfind
        have hp := List.find?_some hfind
        rw [List.mem_range] at hmem
        rw [Bool.and_eq_true, Bool.not_eq_true'] at hp
        exact ⟨i, hmem, hp.1, hp.2, rfl⟩
    | none =>
        right
        constructor
        · intro i hi hc
          have := List.find?_eq_none.mp hfind i (List.mem_range.mpr hi)
          rw [Bool.and_eq_true, Bool.not_eq_true'] at this
          exact this ⟨hc.1, hc.2⟩
        · rfl

/-- Witness for the release contract: a stale release by pane 1 fails with no
state change, and the true holder pane 0 releases successfully. -/
theorem release_lock_contract_witness :
    (¬ releaseState.landscapeLock = some 1 ∧
      releaseLandscapeLock releaseState (some 1) = (false, releaseState)) ∧
    (releaseState.landscapeLock = some 0 ∧
      (releaseLandscapeLock releaseState (some 0)).1 = true ∧
      (releaseLandscapeLock releaseState (some 0)).2.landscapeLock = none) :=
  ⟨⟨by decide, (release_lock_contract releaseState 1).1 (by decide)⟩,
   ⟨rfl, ((release_lock_contract releaseState 0).2 rfl).1,
    ((release_lock_contract releaseState 0).2 rfl).2.2.1⟩⟩

/-- C4 counterexample: a deferred takeover callback for pane 1 fires while the
lock is still held by pane 1 but the stage re-validation fails (stage is
Playing, not Preview).  The claim requires the callback to release the lock,
since the lock is still held by this pane, yet the code returns with the
state, and in particular the held lock, completely untouched. -/
theorem stale_callback_counterexample :
    staleCallbackState.landscapeLock = some 1 ∧
    ¬ staleCallbackState.landscapeLockStage = some LockStage.preview ∧
    delayedLandscapeSwitch sampleEnv staleCallbackState imgA 1 = staleCallbackState ∧
    (delayedLandscapeSwitch sampleEnv staleCallbackState imgA 1).landscapeLock = some 1 := by
  refine ⟨?_, ?_, ?_, ?_⟩
  · rfl
  · decide
  · unfold delayedLandscapeSwitch
    rw [if_neg (by decide), if_pos (by decide)]
  · unfold delayedLandscapeSwitch
    rw [if_neg (by decide), if_pos (by decide)]
    rfl

/-- C4 amended: a stale takeover callback aborts without performing the layout
switch; the holder-mismatch and stage-mismatch aborts leave the whole state
(hence the lock) untouched, and only the displayed-item-mismatch abort
releases the lock (the lock is necessarily still held by this pane there). -/
theorem stale_callback_abort (env : Env) (s : ViewerState) (img : String) (slot : Nat) :
    (¬ s.landscapeLock = some slot → delayedLandscapeSwitch env s img slot = s) ∧
    (s.landscapeLock = some slot → ¬ s.landscapeLockStage = some LockStage.preview →
      delayedLandscapeSwitch env s img slot = s) ∧
    (s.landscapeLock = some slot → s.landscapeLockStage = some LockStage.preview →
      (s.numSlots ≤ slot ∨ ¬ s.slotImagePath slot = img) →
      (delayedLandscapeSwitch env s img slot).currentLayoutMode = s.currentLayoutMode ∧
      (delayedLandscapeSwitch env s img slot).transitionInProgress = s.transitionInProgress ∧
      (delayedLandscapeSwitch env s img slot).landscapeLock = none ∧
      (delayedLandscapeSwitch env s img slot).landscapeLockStage = none ∧
      (delayedLandscapeSwitch env s img slot).landscapeLockTime = none ∧
      (delayedLandscapeSwitch env s img slot).forceReleaseTimer = none) := by
  refine ⟨?_, ?_, ?_⟩
  · intro h1
    unfold delayedLandscapeSwitch
    rw [if_pos h1]
  · intro h1 h2
    unfold delayedLandscapeSwitch
    rw [if_neg (not_not_intro h1), if_pos h2]
  · intro h1 h2 h3
    have hred : delayedLandscapeSwitch env s img slot =
        (releaseLandscapeLock s (some slot)).2 := by
      unfold delayedLandscapeSwitch
      rw [if_neg (not_not_intro h1), if_neg (not_not_intro h2), if_pos h3]
    have hrel : (releaseLandscapeLock s (some slot)).2 =
        processLandscapeQueue (clearLock s) := by
      unfold releaseLandscapeLock
      dsimp only
      rw [if_neg (not_not_intro h1)]
    rw [hred, hrel]
    refine ⟨?_, ?_, ?_, ?_, ?_, ?_⟩ <;> simp [clearLock]

/-- Witness for the amended stale-callback theorem: the stage-mismatch abort
leaves the state untouched, and the displayed-item-mismatch abort releases
the lock without a layout switch. -/
theorem stale_callback_abort_witness :
    (staleCallbackState.landscapeLock = some 1 ∧
      ¬ staleCallbackState.landscapeLockStage = some LockStage.preview ∧
      delayedLandscapeSwitch sampleEnv staleCallbackState imgA 1 = staleCallbackState) ∧
    (preemptState.landscapeLock = some 1 ∧
      preemptState.landscapeLockStage = some LockStage.preview ∧
      (preemptState.numSlots ≤ 1 ∨ ¬ preemptState.slotImagePath 1 = imgA) ∧
      (delayedLandscapeSwitch sampleEnv preemptState imgA 1).landscapeLock = none ∧
      (delayedLandscapeSwitch sampleEnv preemptState imgA 1).currentLayoutMode =
        preemptState.currentLayoutMode) :=
  ⟨⟨rfl, by decide,
    (stale_callback_abort sampleEnv staleCallbackState imgA 1).2.1 rfl (by decide)⟩,
   ⟨rfl, rfl, Or.inr (by decide),
    ((stale_callback_abort sampleEnv preemptState imgA 1).2.2 rfl rfl
      (Or.inr (by decide))).2.2.1,
    ((stale_callback_abort sampleEnv preemptState imgA 1).2.2 rfl rfl
      (Or.inr (by decide))).1⟩⟩

lemma sampleEnv_choice_mem : ∀ l : List String, ¬ l = [] → sampleEnv.choice l ∈ l := by
  intro l hl
  cases l with
  | nil => exact absurd rfl hl
  | cons a t => exact List.mem_cons_self a t

/-- C10: when the head popped from the landscape queue during a normal
(non-pinned, non-dedicated) pane's rotation step names a file that no longer
exists on disk, change_single_image silently discards it: the step is exactly
the fresh-random-draw path run on the popped queue (so no lock acquisition is
attempted for the item and it is not put back), and the item is gone from the
queue for good when it occurs nowhere else. -/
theorem missing_queue_head_dropped (env : Env) (s : ViewerState) (nowMs : Int)
    (index : Nat) (img : String) (rest : List String)
    (hq : s.landscapeQueue = img :: rest)
    (hn : ¬ s.numSlots ≤ index)
    (hp : ¬ s.pinned index = true)
    (hd : ¬ (index = 0 ∧ s.dedicatedSlotEnabled = true ∧ ¬ s.favoritesList = []))
    (hf : env.fileExists img = false)
    (hchoice : ∀ l : List String, ¬ l = [] → env.choice l ∈ l)
    (hrest : ¬ img ∈ rest) (hfiles : ¬ img ∈ s.imageFiles) :
    changeSingleImage env s nowMs index =
      normalStep2 env { s with landscapeQueue := rest } nowMs index ∧
    ¬ img ∈ (changeSingleImage env s nowMs index).landscapeQueue := by
  have h1 : changeSingleImage env s nowMs index =
      normalStep2 env { s with landscapeQueue := rest } nowMs index := by
    simp only [changeSingleImage]
    rw [if_neg hn, if_neg hp, if_neg hd, hq]
    dsimp only
    rw [if_neg (by simp [hf])]
  refine ⟨h1, ?_⟩
  rw [h1]
  rcases normalStep2_queue env { s with landscapeQueue := rest } nowMs index hchoice with
    hQ | ⟨x, hx, hQ⟩
  · rw [hQ]
    exact hrest
  · rw [hQ]
    intro hmem
    rcases List.mem_append.mp hmem with hm | hm
    · exact hrest hm
    · rw [List.mem_singleton] at hm
      exact hfiles (hm ▸ hx)

/-- Witness for the missing-file queue-head theorem: with a two-pane state
whose queue holds only the deleted file, pane 1's rotation step equals the
fresh-draw path on the emptied queue and the item is gone. -/
theorem missing_queue_head_dropped_witness :
    changeSingleImage missingFileEnv missingHeadState 0 1 =
      normalStep2 missingFileEnv { missingHeadState with landscapeQueue := [] } 0 1 ∧
    ¬ imgGone ∈ (changeSingleImage missingFileEnv missingHeadState 0 1).landscapeQueue :=
  missing_queue_head_dropped missingFileEnv missingHeadState 0 1 imgGone []
    rfl (by decide) (by decide) (by decide) (by decide)
    sampleEnv_choice_mem (by decide) (by decide)

/-- C7 counterexample: the head item can leave the queue although the Acquire
attempt for it never succeeded.  From drainState, Release(0) succeeds and
triggers the one eligible pane (pane 1), but the queued file has been deleted,
so the triggered rotation step drops the head without acquiring: afterwards
the queue is empty while the lock is still free, refuting "the head item is
removed from the queue if and only if that Acquire succeeds". -/
theorem queue_drain_counterexample :
    (releaseLandscapeLock drainState (some 0)).1 = true ∧
    (releaseLandscapeLock drainState (some 0)).2.pendingTrigger = some 1 ∧
    (changeSingleImage missingFileEnv
        (triggerSlotUpdate (releaseLandscapeLock drainState (some 0)).2 1) 0 1).landscapeQueue
      = [] ∧
    (changeSingleImage missingFileEnv
        (triggerSlotUpdate (releaseLandscapeLock drainState (some 0)).2 1) 0 1).landscapeLock
      = none := by
  refine ⟨?_, ?_, ?_, ?_⟩ <;> rfl

/-- C7 amended: when Release succeeds while landscape items are queued (and no
trigger is already pending), the pane it triggers is always an eligible one:
in range, allowed to use the global queue (neither the last landscape pane nor
the dedicated pane) and unpinned.  In the triggered rotation step the popped
head is requeued at the front exactly when its file still exists and Acquire
fails; it is removed from the queue when Acquire succeeds, but also, silently,
when its file no longer exists (in which case no Acquire is attempted for
it). -/
theorem queue_drain_amended :
    (∀ (s0 : ViewerState) (e : Nat),
      s0.landscapeLock = some e → ¬ s0.landscapeQueue = [] → s0.pendingTrigger = none →
      (releaseLandscapeLock s0 (some e)).1 = true ∧
      ∀ i, (releaseLandscapeLock s0 (some e)).2.pendingTrigger = some i →
        i < s0.numSlots ∧ canSlotUseGlobalQueue s0 i = true ∧ ¬ s0.pinned i = true) ∧
    (∀ (env : Env) (s : ViewerState) (nowMs : Int) (index : Nat) (img : String)
        (rest : List String),
      s.landscapeQueue = img :: rest →
      ¬ s.numSlots ≤ index → ¬ s.pinned index = true →
      ¬ (index = 0 ∧ s.dedicatedSlotEnabled = true ∧ ¬ s.favoritesList = []) →
      (env.fileExists img = false →
        changeSingleImage env s nowMs index =
          normalStep2 env { s with landscapeQueue := rest } nowMs index) ∧
      (env.fileExists img = true →
        ((acquireLandscapeLock env { s with landscapeQueue := rest } nowMs index false).1
            = false →
          changeSingleImage env s nowMs index = normalStep2 env s nowMs index) ∧
        ((acquireLandscapeLock env { s with landscapeQueue := rest } nowMs index false).1
            = true →
          (changeSingleImage env s nowMs index).landscapeQueue = rest ∧
          (changeSingleImage env s nowMs index).landscapeLock = some index))) := by
  constructor
  · intro s0 e hrel hqne hpt
    have h1 : releaseLandscapeLock s0 (some e) =
        (true, processLandscapeQueue (clearLock s0)) := by
      unfold releaseLandscapeLock
      dsimp only
      rw [if_neg (not_not_intro hrel)]
    rw [h1]
    refine ⟨rfl, ?_⟩
    intro i hi
    unfold processLandscapeQueue at hi
    rw [if_neg (by simp [clearLock, List.isEmpty_iff, hqne])] at hi
    split at hi
    next j hf =>
      have hji : some j = some i := hi
      injection hji with hji
      subst hji
      have hpred := List.find?_some hf
      have hmem := List.mem_of_find?_eq_some hf
      rw [List.mem_range] at hmem
      have hcan := ((Bool.and_eq_true _ _).mp hpred).1
      have hpin := ((Bool.and_eq_true _ _).mp hpred).2
      refine ⟨hmem, hcan, ?_⟩
      simpa [clearLock] using hpin
    next hf =>
      have hpt' : s0.pendingTrigger = some i := hi
      rw [hpt] at hpt'
      cases hpt'
  · intro env s nowMs index img rest hq hn hp hd
    constructor
    · intro hf
      simp only [changeSingleImage]
      rw [if_neg hn, if_neg hp, if_neg hd, hq]
      dsimp only
      rw [if_neg (by simp [hf])]
    · intro hf
      constructor
      · intro hfail
        simp only [changeSingleImage]
        rw [if_neg hn, if_neg hp, if_neg hd, hq]
        dsimp only
        rw [if_pos (by simp [hf]), if_neg (by simp [hfail])]
      · intro hsucc
        have heq : changeSingleImage env s nowMs index =
            previewFlow env
              { (acquireLandscapeLock env { s with landscapeQueue := rest } nowMs index
                  false).2 with
                currentImages :=
                  (acquireLandscapeLock env { s with landscapeQueue := rest } nowMs index
                    false).2.currentImages.set index img } index img := by
          simp only [changeSingleImage]
          rw [if_neg hn, if_neg hp, if_neg hd, hq]
          dsimp only
          rw [if_pos (by simp [hf]), if_pos hsucc]
        rcases acquire_cases env { s with landscapeQueue := rest } nowMs index false with
          hc | ⟨-, -, -, hg⟩
        · rw [hc] at hsucc
          cases hsucc
        · constructor
          · rw [heq]
            simp [acquire_queue]
          · rw [heq]
            rw [previewFlow_lock]
            exact hg.1

/-- Witness for the amended queue-draining theorem: from drainState the
triggered pane 1 is eligible; with the deleted-file queue the step is the
fresh-draw path on the popped queue; with an existing queued landscape file
and a free lock the step removes the head and grants pane 1 the lock. -/
theorem queue_drain_amended_witness :
    (1 < drainState.numSlots ∧ canSlotUseGlobalQueue drainState 1 = true ∧
      ¬ drainState.pinned 1 = true) ∧
    changeSingleImage missingFileEnv missingHeadState 0 1 =
      normalStep2 missingFileEnv { missingHeadState with landscapeQueue := [] } 0 1 ∧
    ((changeSingleImage sampleEnv queueHeadState 0 1).landscapeQueue = [] ∧
      (changeSingleImage sampleEnv queueHeadState 0 1).landscapeLock = some 1) :=
  ⟨(queue_drain_amended.1 drainState 0 rfl (by decide) rfl).2 1 rfl,
   (queue_drain_amended.2 missingFileEnv missingHeadState 0 1 imgGone [] rfl
      (by decide) (by decide) (by decide)).1 (by decide),
   ((queue_drain_amended.2 sampleEnv queueHeadState 0 1 imgW [] rfl
      (by decide) (by decide) (by decide)).2 (by decide)).2 (by decide)⟩

lemma checkLockTimeout_le (env : Env) (s : ViewerState) (now : Int) (holder : Nat) (t : Int)
    (hlock : s.landscapeLock = some holder) (htime : s.landscapeLockTime = some t)
    (hle : now - t ≤ landscapeLockTimeout) :
    checkLockTimeout env s now = s := by
  unfold checkLockTimeout
  rw [hlock, htime]
  exact if_neg (not_lt.mpr hle)

lemma checkLockTimeout_gt (env : Env) (s : ViewerState) (now : Int) (holder : Nat) (t : Int)
    (hlock : s.landscapeLock = some holder) (htime : s.landscapeLockTime = some t)
    (hgt : landscapeLockTimeout < now - t) :
    checkLockTimeout env s now = forceReleaseLock env s holder := by
  unfold checkLockTimeout
  rw [hlock, htime]
  exact if_pos hgt

@[simp] lemma forceSlotToPortrait_numSlots (env : Env) (s : ViewerState) (i : Nat) :
    (forceSlotToPortrait env s i).numSlots = s.numSlots := by
  simp only [forceSlotToPortrait]
  (repeat' split) <;> rfl

@[simp] lemma forceSlotToPortrait_pinned (env : Env) (s : ViewerState) (i : Nat) :
    (forceSlotToPortrait env s i).pinned = s.pinned := by
  simp only [forceSlotToPortrait]
  (repeat' split) <;> rfl

lemma forceSlotToPortrait_timer (env : Env) (s : ViewerState) (i : Nat) :
    ((forceSlotToPortrait env s i).timers i).active = false ∨
    (forceSlotToPortrait env s i).timers i = s.timers i := by
  simp only [forceSlotToPortrait]
  (repeat' split)
  · exact Or.inl (by simp [stopTimer, updateFn])
  · exact Or.inr rfl
  · exact Or.inr rfl

lemma forceSlotToPortrait_imagePath (env : Env) (s : ViewerState) (i : Nat) (pImg : String)
    (hpool : getRandomPortraitImage env s s.currentImages = some pImg)
    (hload : env.loadOk pImg = true) :
    (forceSlotToPortrait env s i).slotImagePath i = pImg := by
  have hpool' : getRandomPortraitImage env (cancelPendingTask s i)
      (cancelPendingTask s i).currentImages = some pImg := hpool
  simp only [forceSlotToPortrait]
  rw [hpool']
  dsimp only
  rw [if_pos hload]
  simp [stopTimer, updateFn]

lemma runTicks_stable (env : Env) (s : ViewerState) (holder : Nat) (t0 phase : Int)
    (hlock : s.landscapeLock = some holder) (htime : s.landscapeLockTime = some t0)
    (K : Nat) (hbefore : ∀ j : Nat, j < K → phase + 1000 * (j : Int) ≤ landscapeLockTimeout) :
    runTicks env s t0 phase K = s := by
  induction K with
  | zero => rfl
  | succ k ih =>
      have hk : runTicks env s t0 phase k = s :=
        ih (fun j hj => hbefore j (Nat.lt_succ_of_lt hj))
      show checkLockTimeout env (runTicks env s t0 phase k) (t0 + phase + 1000 * (k : Int)) = s
      rw [hk]
      refine checkLockTimeout_le env s _ holder t0 hlock htime ?_
      have := hbefore k (Nat.lt_succ_self k)
      omega

lemma forceReleaseLock_spec (env : Env) (s : ViewerState) (holder : Nat)
    (hlock : s.landscapeLock = some holder) :
    (forceReleaseLock env s holder).landscapeLock = none ∧
    (forceReleaseLock env s holder).landscapeLockStage = none ∧
    (forceReleaseLock env s holder).landscapeLockTime = none ∧
    (holder < s.numSlots →
      (∀ pImg, getRandomPortraitImage env s s.currentImages = some pImg →
        env.loadOk pImg = true →
        (forceReleaseLock env s holder).slotImagePath holder = pImg) ∧
      (¬ s.pinned holder = true →
        (forceReleaseLock env s holder).timers holder =
          { active := true, remaining := env.interval holder }) ∧
      (s.pinned holder = true →
        ((forceReleaseLock env s holder).timers holder).active = false ∨
        (forceReleaseLock env s holder).timers holder = s.timers holder)) := by
  simp only [forceReleaseLock, forceSlotToPortrait_numSlots, forceSlotToPortrait_pinned]
  rw [if_pos hlock]
  by_cases hn : holder < s.numSlots
  · rw [if_pos hn]
    by_cases hpin : s.pinned holder = true
    · rw [if_neg (by simp [hpin])]
      refine ⟨rfl, rfl, rfl, fun _ => ⟨?_, ?_, ?_⟩⟩
      · intro pImg hpool hload
        exact forceSlotToPortrait_imagePath env s holder pImg hpool hload
      · intro hc
        exact absurd hpin hc
      · intro _
        exact forceSlotToPortrait_timer env s holder
    · rw [if_pos ⟨hn, hpin⟩]
      refine ⟨rfl, rfl, rfl, fun _ => ⟨?_, ?_, ?_⟩⟩
      · intro pImg hpool hload
        have h1 := forceSlotToPortrait_imagePath env s holder pImg hpool hload
        simpa [startTimer, updateFn] using h1
      · intro _
        simp [startTimer, updateFn]
      · intro hc
        exact absurd hc hpin
  · rw [if_neg hn]
    exact ⟨rfl, rfl, rfl, fun hc => absurd hc hn⟩

@[simp] lemma startTimer_snapshot (s : ViewerState) (i : Nat) (v : Int) :
    (startTimer s i v).portraitTimerStates = s.portraitTimerStates := rfl

@[simp] lemma stopTimer_snapshot (s : ViewerState) (i : Nat) :
    (stopTimer s i).portraitTimerStates = s.portraitTimerStates := rfl

@[simp] lemma displayAndRestart_snapshot (env : Env) (s : ViewerState) (i : Nat)
    (img : Option String) :
    (displayAndRestart env s i img).portraitTimerStates = s.portraitTimerStates := by
  simp only [displayAndRestart]
  (repeat' split) <;> rfl

@[simp] lemma displayAndRestart_numSlots (env : Env) (s : ViewerState) (i : Nat)
    (img : Option String) : (displayAndRestart env s i img).numSlots = s.numSlots := by
  simp only [displayAndRestart]
  (repeat' split) <;> rfl

@[simp] lemma previewFlow_snapshot (env : Env) (s : ViewerState) (i : Nat) (img : String) :
    (previewFlow env s i img).portraitTimerStates = s.portraitTimerStates := by
  simp only [previewFlow, scheduleLandscapeSwitch, cancelPendingTask, stopTimer]
  (repeat' split) <;> rfl

@[simp] lemma portraitRedraw_snapshot (env : Env) (s : ViewerState) (i : Nat) (img : String) :
    (portraitRedraw env s i img).portraitTimerStates = s.portraitTimerStates := by
  unfold portraitRedraw
  (repeat' split) <;> simp

@[simp] lemma portraitRedraw_numSlots (env : Env) (s : ViewerState) (i : Nat) (img : String) :
    (portraitRedraw env s i img).numSlots = s.numSlots := by
  unfold portraitRedraw
  (repeat' split) <;> simp

@[simp] lemma processLandscapeQueue_timers (s : ViewerState) :
    (processLandscapeQueue s).timers = s.timers := by
  unfold processLandscapeQueue
  (repeat' split) <;> rfl

@[simp] lemma processLandscapeQueue_snapshot (s : ViewerState) :
    (processLandscapeQueue s).portraitTimerStates = s.portraitTimerStates := by
  unfold processLandscapeQueue
  (repeat' split) <;> rfl

lemma displayAndRestart_timers_ne (env : Env) (s : ViewerState) (i : Nat)
    (img : Option String) (j : Nat) (hj : ¬ j = i) :
    (displayAndRestart env s i img).timers j = s.timers j := by
  simp only [displayAndRestart]
  (repeat' split) <;> simp [startTimer, updateFn, hj]

lemma portraitRedraw_timers_ne (env : Env) (s : ViewerState) (i : Nat) (img : String)
    (j : Nat) (hj : ¬ j = i) :
    (portraitRedraw env s i img).timers j = s.timers j := by
  unfold portraitRedraw
  (repeat' split) <;> rw [displayAndRestart_timers_ne _ _ _ _ _ hj] <;> rfl

lemma acquire_fails_playing (env : Env) (u : ViewerState) (nowMs : Int) (i : Nat) (p : Bool)
    (holder : Nat) (hl : u.landscapeLock = some holder)
    (hstage : u.landscapeLockStage = some LockStage.playing) :
    acquireLandscapeLock env u nowMs i p = (false, u) := by
  rcases acquire_cases env u nowMs i p with h | ⟨-, -, hfrom, -⟩
  · exact h
  · rcases hfrom with h1 | h2
    · simp [hl] at h1
    · simp [hstage] at h2

lemma normalStep2_frame (env : Env) (u : ViewerState) (nowMs : Int) (idx : Nat)
    (holder : Nat) (hl : u.landscapeLock = some holder)
    (hstage : u.landscapeLockStage = some LockStage.playing) (j : Nat) (hj : ¬ j = idx) :
    (normalStep2 env u nowMs idx).timers j = u.timers j ∧
    (normalStep2 env u nowMs idx).portraitTimerStates = u.portraitTimerStates ∧
    (normalStep2 env u nowMs idx).landscapeLock = u.landscapeLock ∧
    (normalStep2 env u nowMs idx).numSlots = u.numSlots := by
  simp only [normalStep2]
  split_ifs
  all_goals solve
    | (rename_i hsucc
       rw [acquire_fails_playing env _ nowMs idx false holder (by exact hl) (by exact hstage)]
         at hsucc
       simp at hsucc)
    | (refine ⟨?_, ?_, ?_, ?_⟩ <;> solve
        | simp [portraitRedraw_timers_ne, displayAndRestart_timers_ne, startTimer, updateFn, hj]
        | rfl
        | simp)

lemma dedicatedBranch_frame (env : Env) (u : ViewerState) (nowMs : Int) (idx : Nat)
    (holder : Nat) (hl : u.landscapeLock = some holder)
    (hstage : u.landscapeLockStage = some LockStage.playing) (j : Nat) (hj : ¬ j = idx) :
    (dedicatedBranch env u nowMs idx).timers j = u.timers j ∧
    (dedicatedBranch env u nowMs idx).portraitTimerStates = u.portraitTimerStates ∧
    (dedicatedBranch env u nowMs idx).landscapeLock = u.landscapeLock ∧
    (dedicatedBranch env u nowMs idx).numSlots = u.numSlots := by
  simp only [dedicatedBranch]
  split_ifs
  all_goals solve
    | (rename_i hsucc
       rw [acquire_fails_playing env _ nowMs 0 true holder (by exact hl) (by exact hstage)]
         at hsucc
       simp at hsucc)
    | (refine ⟨?_, ?_, ?_, ?_⟩ <;> solve
        | simp [portraitRedraw_timers_ne, displayAndRestart_timers_ne, startTimer, updateFn, hj]
        | rfl
        | simp)

lemma changeSingleImage_frame (env : Env) (u : ViewerState) (nowMs : Int) (idx : Nat)
    (holder : Nat) (hl : u.landscapeLock = some holder)
    (hstage : u.landscapeLockStage = some LockStage.playing) (j : Nat) (hj : ¬ j = idx) :
    (changeSingleImage env u nowMs idx).timers j = u.timers j ∧
    (changeSingleImage env u nowMs idx).portraitTimerStates = u.portraitTimerStates ∧
    (changeSingleImage env u nowMs idx).landscapeLock = u.landscapeLock ∧
    (changeSingleImage env u nowMs idx).numSlots = u.numSlots := by
  simp only [changeSingleImage]
  split_ifs with h1 h2 h3
  · exact ⟨rfl, rfl, rfl, rfl⟩
  · exact ⟨by simp [startTimer, updateFn, hj], rfl, rfl, rfl⟩
  · exact dedicatedBranch_frame env u nowMs idx holder hl hstage j hj
  · split
    next lImg rest' =>
      split_ifs with hf hs
      · exfalso
        rw [acquire_fails_playing env _ nowMs idx false holder (by exact hl)
          (by exact hstage)] at hs
        simp at hs
      · exact normalStep2_frame env u nowMs idx holder hl hstage j hj
      · exact normalStep2_frame env _ nowMs idx holder (by exact hl) (by exact hstage) j hj
    next => exact normalStep2_frame env u nowMs idx holder hl hstage j hj

@[simp] lemma restoreTimerValue_active (env : Env) (st : SavedTimerState) :
    (restoreTimerValue env st).active = true := by
  unfold restoreTimerValue
  split <;> rfl

@[simp] lemma snapshotTimerStates_length (s : ViewerState) :
    (snapshotTimerStates s).length = s.numSlots := by
  simp [snapshotTimerStates]

lemma restoreTimers_append_one (env : Env) (n : Nat) (timers : Nat → Timer)
    (l : List SavedTimerState) (st : SavedTimerState) :
    restoreTimers env n timers (l ++ [st]) =
      if st.index < n then
        updateFn (restoreTimers env n timers l) st.index (restoreTimerValue env st)
      else restoreTimers env n timers l := by
  unfold restoreTimers
  rw [List.foldl_append]
  rfl

lemma restoreTimers_aux (env : Env) (n : Nat) (timers : Nat → Timer)
    (f : Nat → SavedTimerState) (hidx : ∀ i, (f i).index = i) :
    ∀ (m : Nat), m ≤ n → ∀ (j : Nat),
      restoreTimers env n timers ((List.range m).map f) j =
        if j < m then restoreTimerValue env (f j) else timers j := by
  intro m
  induction m with
  | zero =>
      intro _ j
      simp [restoreTimers]
  | succ k ih =>
      intro hm j
      rw [List.range_succ, List.map_append, List.map_cons, List.map_nil,
        restoreTimers_append_one, hidx k,
        if_pos (Nat.lt_of_lt_of_le (Nat.lt_succ_self k) hm)]
      simp only [updateFn]
      by_cases hjk : j = k
      · rw [if_pos hjk, hjk, if_pos (Nat.lt_succ_self k)]
      · rw [if_neg hjk, ih (Nat.le_of_succ_le hm) j]
        by_cases hlt : j < k
        · rw [if_pos hlt, if_pos (Nat.lt_succ_of_lt hlt)]
        · rw [if_neg hlt, if_neg (by omega)]

lemma restoreTimers_snapshot (env : Env) (s' : ViewerState) (timers : Nat → Timer) (j : Nat) :
    restoreTimers env s'.numSlots timers (snapshotTimerStates s') j =
      if j < s'.numSlots then
        restoreTimerValue env
          { index := j,
            remaining := max (if (s'.timers j).active then (s'.timers j).remaining else 0) 1000,
            wasActive := (s'.timers j).active,
            currentImage := s'.currentImages.getD j emptyPath }
      else timers j :=
  restoreTimers_aux env s'.numSlots timers
    (fun i =>
      { index := i,
        remaining := max (if (s'.timers i).active then (s'.timers i).remaining else 0) 1000,
        wasActive := (s'.timers i).active,
        currentImage := s'.currentImages.getD i emptyPath })
    (fun _ => rfl) s'.numSlots le_rfl j

lemma switchToLandscape_eq (env : Env) (s0 : ViewerState) (img : String) (src : Nat)
    (hmode : s0.currentLayoutMode = LayoutMode.portrait)
    (htr : s0.transitionInProgress = false)
    (hsrc : src < s0.numSlots) :
    switchToLandscapeModeWithImage env s0 img (src : Int) =
      { s0 with
          currentLayoutMode := LayoutMode.landscape,
          cooldownActive := true,
          transitionInProgress := false,
          landscapeSourceSlotIndex := (src : Int),
          landscapePreviewPending := false,
          portraitTimerStates := snapshotTimerStates s0,
          timers := fun i => if i < s0.numSlots then { active := false, remaining := 0 }
            else s0.timers i,
          slotImagePath := if env.loadOk img = true then updateFn s0.slotImagePath src img
            else s0.slotImagePath } := by
  simp only [switchToLandscapeModeWithImage, startLandscapeTransitionAnimation,
    completeLandscapeTransition, stopAllTimers]
  rw [if_neg (show ¬ (s0.transitionInProgress = true ∨
      s0.currentLayoutMode = LayoutMode.landscape) by simp [htr, hmode])]
  split_ifs with h2 h3 h4
  · rfl
  · rfl
  · exact absurd ⟨Int.natCast_nonneg src, by exact_mod_cast hsrc⟩ h2
  · exact absurd ⟨Int.natCast_nonneg src, by exact_mod_cast hsrc⟩ h2

lemma finalizeCore_eq (env : Env) (s : ViewerState) (nowMs : Int)
    (hsnap : ¬ s.portraitTimerStates.isEmpty = true ∧
      s.portraitTimerStates.length = s.numSlots) :
    finalizeCore env s nowMs =
      { safetyNet env (finalizeSourceRefresh env
          { s with timers := restoreTimers env s.numSlots s.timers s.portraitTimerStates,
                   portraitTimerStates := [],
                   transitionInProgress := false } nowMs) with
        cooldownActive := true } := by
  simp only [finalizeCore, safetyNet]
  rw [if_pos hsnap]

lemma finalizeSourceRefresh_locked (env : Env) (u : ViewerState) (nowMs : Int) (src : Nat)
    (hidx : u.landscapeSourceSlotIndex = (src : Int))
    (hsrc : src < u.numSlots)
    (hlock : u.landscapeLock = some src)
    (hstage : u.landscapeLockStage = some LockStage.playing) :
    (∀ j, ¬ j = src → (finalizeSourceRefresh env u nowMs).timers j = u.timers j) ∧
    (finalizeSourceRefresh env u nowMs).timers src =
      { active := true, remaining := env.interval src } ∧
    (finalizeSourceRefresh env u nowMs).portraitTimerStates = u.portraitTimerStates ∧
    (finalizeSourceRefresh env u nowMs).landscapeLock = u.landscapeLock ∧
    (finalizeSourceRefresh env u nowMs).numSlots = u.numSlots := by
  have hset : finalizeSourceRefresh env u nowMs =
      (if ¬ u.pinned src = true then
        startTimer (changeSingleImage env u nowMs src) src (env.interval src)
      else startTimer u src (env.interval src)) := by
    simp only [finalizeSourceRefresh]
    rw [hidx]
    rw [if_pos (show (0 : Int) ≤ (src : Int) ∧ (src : Int) < (u.numSlots : Int) from
      ⟨Int.natCast_nonneg src, by exact_mod_cast hsrc⟩)]
    simp only [Int.toNat_natCast]
    rw [hlock, if_pos rfl]
  by_cases hpin : u.pinned src = true
  · rw [hset, if_neg (not_not_intro hpin)]
    refine ⟨?_, ?_, rfl, rfl, rfl⟩
    · intro j hj
      simp [startTimer, updateFn, hj]
    · simp [startTimer, updateFn]
  · rw [hset, if_pos hpin]
    have hfr := fun (j : Nat) (hj : ¬ j = src) =>
      changeSingleImage_frame env u nowMs src src hlock hstage j hj
    refine ⟨?_, ?_, ?_, ?_, ?_⟩
    · intro j hj
      have h1 : (startTimer (changeSingleImage env u nowMs src) src
          (env.interval src)).timers j = (changeSingleImage env u nowMs src).timers j := by
        simp [startTimer, updateFn, hj]
      rw [h1]
      exact (hfr j hj).1
    · simp [startTimer, updateFn]
    · exact (hfr (src + 1) (by omega)).2.1
    · exact (hfr (src + 1) (by omega)).2.2.1
    · exact (hfr (src + 1) (by omega)).2.2.2

lemma finalizePortraitTransition_eq_of_lock (env : Env) (u : ViewerState) (nowMs : Int)
    (l : Nat) (h : (finalizeCore env u nowMs).landscapeLock = some l) :
    finalizePortraitTransition env u nowMs =
      processLandscapeQueue (clearLock (finalizeCore env u nowMs)) := by
  simp only [finalizePortraitTransition]
  split
  next heq =>
    unfold releaseLandscapeLock
    dsimp only
    rw [if_neg (not_not_intro heq)]
  next heq =>
    rw [h] at heq
    cases heq

lemma finalizePortrait_spec (env : Env) (u : ViewerState) (nowMs : Int) (src : Nat)
    (hidx : u.landscapeSourceSlotIndex = (src : Int))
    (hsrc : src < u.numSlots)
    (hlock : u.landscapeLock = some src)
    (hstage : u.landscapeLockStage = some LockStage.playing)
    (hsnapLen : u.portraitTimerStates.length = u.numSlots)
    (hcover : ∀ j, j < u.numSlots → ¬ j = src →
      (restoreTimers env u.numSlots u.timers u.portraitTimerStates j).active = true) :
    (finalizePortraitTransition env u nowMs).portraitTimerStates = [] ∧
    ∀ j, j < u.numSlots →
      (finalizePortraitTransition env u nowMs).timers j =
        if j = src then { active := true, remaining := env.interval j }
        else restoreTimers env u.numSlots u.timers u.portraitTimerStates j := by
  have hn : 0 < u.numSlots := lt_of_le_of_lt (Nat.zero_le src) hsrc
  have hne : ¬ u.portraitTimerStates.isEmpty = true := by
    intro hc
    rw [List.isEmpty_iff] at hc
    rw [hc] at hsnapLen
    simp at hsnapLen
    omega
  set u1 : ViewerState :=
    { u with timers := restoreTimers env u.numSlots u.timers u.portraitTimerStates,
             portraitTimerStates := [],
             transitionInProgress := false } with hu1
  have hcore : finalizeCore env u nowMs =
      { safetyNet env (finalizeSourceRefresh env u1 nowMs) with cooldownActive := true } :=
    finalizeCore_eq env u nowMs ⟨hne, hsnapLen⟩
  have hsr := finalizeSourceRefresh_locked env u1 nowMs src hidx hsrc hlock hstage
  set s3 := finalizeSourceRefresh env u1 nowMs with hs3
  have hlk3 : s3.landscapeLock = some src := hsr.2.2.2.1.trans hlock
  have hl5 : (finalizeCore env u nowMs).landscapeLock = some src := by
    rw [hcore]
    exact hlk3
  have hfin : finalizePortraitTransition env u nowMs =
      processLandscapeQueue (clearLock (finalizeCore env u nowMs)) :=
    finalizePortraitTransition_eq_of_lock env u nowMs src hl5
  refine ⟨?_, ?_⟩
  · rw [hfin, processLandscapeQueue_snapshot, hcore]
    exact hsr.2.2.1
  · intro j hj
    rw [hfin, processLandscapeQueue_timers, hcore]
    show (safetyNet env s3).timers j = _
    by_cases hjs : j = src
    · subst hjs
      have hact : (s3.timers j).active = true := by rw [hsr.2.1]
      have hnet : (safetyNet env s3).timers j = s3.timers j := by
        simp only [safetyNet]
        rw [if_neg (by simp [hact])]
      rw [hnet, hsr.2.1, if_pos rfl]
    · have hact : (s3.timers j).active = true := by
        rw [hsr.1 j hjs]
        exact hcover j hj hjs
      have hnet : (safetyNet env s3).timers j = s3.timers j := by
        simp only [safetyNet]
        rw [if_neg (by simp [hact])]
      rw [hnet, hsr.1 j hjs, if_neg hjs]

/-- C6: after a complete takeover-then-revert cycle with no preemption
(landscape entry snapshots and stops all pane timers; the later revert to
portrait restores them), every pane whose rotation timer was active when the
snapshot was taken resumes with remaining time max(savedRemaining, 1000),
every pane whose timer was inactive — which in a real takeover includes the
source pane, whose timer was stopped at preview time — restarts with a fresh
random interval, and the saved timer snapshot is empty afterwards, consumed
exactly once. -/
theorem timer_snapshot_roundtrip (env : Env) (s0 : ViewerState) (img : String)
    (src : Nat) (nowMs : Int)
    (hmode : s0.currentLayoutMode = LayoutMode.portrait)
    (htr : s0.transitionInProgress = false)
    (hsrc : src < s0.numSlots)
    (hlock : s0.landscapeLock = some src)
    (hstage : s0.landscapeLockStage = some LockStage.playing)
    (hsrcOff : (s0.timers src).active = false) :
    (switchToPortraitMode env (switchToLandscapeModeWithImage env s0 img (src : Int))
        nowMs).portraitTimerStates = [] ∧
    ∀ j, j < s0.numSlots →
      (((s0.timers j).active = true →
        (switchToPortraitMode env (switchToLandscapeModeWithImage env s0 img (src : Int))
            nowMs).timers j =
          { active := true, remaining := max (s0.timers j).remaining 1000 }) ∧
       ((s0.timers j).active = false →
        (switchToPortraitMode env (switchToLandscapeModeWithImage env s0 img (src : Int))
            nowMs).timers j = { active := true, remaining := env.interval j })) := by
  have key : ∀ (u : ViewerState),
      u.landscapeSourceSlotIndex = (src : Int) →
      u.numSlots = s0.numSlots →
      u.landscapeLock = some src →
      u.landscapeLockStage = some LockStage.playing →
      u.portraitTimerStates = snapshotTimerStates s0 →
      u.timers = (fun i => if i < s0.numSlots then { active := false, remaining := 0 }
        else s0.timers i) →
      (finalizePortraitTransition env u nowMs).portraitTimerStates = [] ∧
      ∀ j, j < s0.numSlots →
        (((s0.timers j).active = true →
          (finalizePortraitTransition env u nowMs).timers j =
            { active := true, remaining := max (s0.timers j).remaining 1000 }) ∧
         ((s0.timers j).active = false →
          (finalizePortraitTransition env u nowMs).timers j =
            { active := true, remaining := env.interval j })) := by
    intro u h1 h2 h3 h4 h5 h6
    have hspec := finalizePortrait_spec env u nowMs src h1 (by rw [h2]; exact hsrc) h3 h4
      (by rw [h5, snapshotTimerStates_length, h2])
      (by
        intro j hj hjs
        rw [h2, h5, h6, restoreTimers_snapshot env s0 _ j,
          if_pos (show j < s0.numSlots from h2 ▸ hj)]
        exact restoreTimerValue_active env _)
    refine ⟨hspec.1, ?_⟩
    intro j hj
    have ht := hspec.2 j (by rw [h2]; exact hj)
    rw [h2, h5, h6, restoreTimers_snapshot env s0 _ j] at ht
    constructor
    · intro hact
      by_cases hjs : j = src
      · exfalso
        rw [hjs, hsrcOff] at hact
        cases hact
      · rw [ht, if_neg hjs, if_pos hj]
        simp [restoreTimerValue, hact, max_assoc]
    · intro hact
      by_cases hjs : j = src
      · rw [ht, if_pos hjs]
      · rw [ht, if_neg hjs, if_pos hj]
        simp [restoreTimerValue, hact]
  rw [switchToLandscape_eq env s0 img src hmode htr hsrc]
  simp only [switchToPortraitMode, completePortraitTransition]
  rw [if_neg (by simp)]
  exact key _ rfl rfl hlock hstage rfl rfl

/-- Witness for the snapshot round-trip: from cycleState (pane 1 takes over,
pane 0 mid-rotation with 7000 ms left), after the full cycle pane 0 resumes
with max 7000 1000 ms remaining, pane 1 restarts with a fresh interval, and
the snapshot list is empty. -/
theorem timer_snapshot_roundtrip_witness :
    (switchToPortraitMode sampleEnv
        (switchToLandscapeModeWithImage sampleEnv cycleState imgW ((1 : Nat) : Int))
        0).portraitTimerStates = [] ∧
    (switchToPortraitMode sampleEnv
        (switchToLandscapeModeWithImage sampleEnv cycleState imgW ((1 : Nat) : Int))
        0).timers 0 =
      { active := true, remaining := max (cycleState.timers 0).remaining 1000 } ∧
    (switchToPortraitMode sampleEnv
        (switchToLandscapeModeWithImage sampleEnv cycleState imgW ((1 : Nat) : Int))
        0).timers 1 = { active := true, remaining := sampleEnv.interval 1 } := by
  have H := timer_snapshot_roundtrip sampleEnv cycleState imgW 1 0 rfl rfl (by decide)
    rfl rfl rfl
  exact ⟨H.1, (H.2 0 (by decide)).1 rfl, (H.2 1 (by decide)).2 rfl⟩

/-- C5 counterexample: with a lock acquired at time 0 and the periodic check
aligned with the acquisition, the only tick whose elapsed time lies in
[15000, 16000) is the one at 15000 ms, and it does NOT release (the
comparison is strict); the release happens at the 16000 ms tick, outside the
claimed window.  Moreover, when the held pane is pinned, the forced release
leaves that pane's rotation timer inactive in the same tick. -/
theorem timeout_window_counterexample :
    checkLockTimeout sampleEnv tickState 15000 = tickState ∧
    (checkLockTimeout sampleEnv tickState 16000).landscapeLock = none ∧
    (checkLockTimeout sampleEnv pinnedTickState 16000).landscapeLock = none ∧
    ((checkLockTimeout sampleEnv pinnedTickState 16000).timers 1).active = false := by
  refine ⟨?_, ?_, ?_, ?_⟩ <;> rfl

/-- C5 amended: if the lock is granted at t0 and never explicitly released,
and the periodic 1000 ms check fires at times t0 + phase + 1000·j with
0 ≤ phase < 1000, then every tick at elapsed time ≤ 15000 leaves the state
completely unchanged, and the first tick at elapsed time > 15000 — whose
elapsed time necessarily lies in (15000, 16000] — forces the release: holder,
stage and acquiredAt are cleared, the held pane is reset to a random portrait
item (when one exists and loads), and its rotation timer is restarted within
that same tick only when the pane is not pinned; a pinned pane's timer is left
stopped or untouched. -/
theorem timeout_recovery_amended (env : Env) (s : ViewerState) (holder : Nat)
    (t0 phase : Int) (K : Nat)
    (hlock : s.landscapeLock = some holder) (htime : s.landscapeLockTime = some t0)
    (hphase0 : 0 ≤ phase) (hphase1 : phase < 1000)
    (hbefore : ∀ j : Nat, j < K → phase + 1000 * (j : Int) ≤ landscapeLockTimeout)
    (hafter : landscapeLockTimeout < phase + 1000 * (K : Int)) :
    runTicks env s t0 phase K = s ∧
    (landscapeLockTimeout < phase + 1000 * (K : Int) ∧
      phase + 1000 * (K : Int) ≤ landscapeLockTimeout + 1000) ∧
    (runTicks env s t0 phase (K + 1)).landscapeLock = none ∧
    (runTicks env s t0 phase (K + 1)).landscapeLockStage = none ∧
    (runTicks env s t0 phase (K + 1)).landscapeLockTime = none ∧
    (holder < s.numSlots →
      (∀ pImg, getRandomPortraitImage env s s.currentImages = some pImg →
        env.loadOk pImg = true →
        (runTicks env s t0 phase (K + 1)).slotImagePath holder = pImg) ∧
      (¬ s.pinned holder = true →
        (runTicks env s t0 phase (K + 1)).timers holder =
          { active := true, remaining := env.interval holder }) ∧
      (s.pinned holder = true →
        ((runTicks env s t0 phase (K + 1)).timers holder).active = false ∨
        (runTicks env s t0 phase (K + 1)).timers holder = s.timers holder)) := by
  have hstable : runTicks env s t0 phase K = s :=
    runTicks_stable env s holder t0 phase hlock htime K hbefore
  have hwin : phase + 1000 * (K : Int) ≤ landscapeLockTimeout + 1000 := by
    cases K with
    | zero =>
        simp only [landscapeLockTimeout] at *
        omega
    | succ k =>
        have := hbefore k (Nat.lt_succ_self k)
        simp only [landscapeLockTimeout] at *
        push_cast at *
        omega
  have hrel : runTicks env s t0 phase (K + 1) = forceReleaseLock env s holder := by
    show checkLockTimeout env (runTicks env s t0 phase K) (t0 + phase + 1000 * (K : Int)) =
      forceReleaseLock env s holder
    rw [hstable]
    refine checkLockTimeout_gt env s _ holder t0 hlock htime ?_
    omega
  rw [hstable, hrel]
  have hspec := forceReleaseLock_spec env s holder hlock
  exact ⟨rfl, ⟨hafter, hwin⟩, hspec.1, hspec.2.1, hspec.2.2.1, hspec.2.2.2⟩

/-- Witness for the amended timeout theorem: pane 1 acquired at time 0 with
the periodic check offset by 500 ms; the first 15 ticks (elapsed up to
14500 ms) change nothing, and the 16th tick at elapsed 15500 ms forces the
release and restarts the unpinned pane's timer. -/
theorem timeout_recovery_amended_witness :
    runTicks sampleEnv tickState 0 500 15 = tickState ∧
    (landscapeLockTimeout < 500 + 1000 * ((15 : Nat) : Int) ∧
      500 + 1000 * ((15 : Nat) : Int) ≤ landscapeLockTimeout + 1000) ∧
    (runTicks sampleEnv tickState 0 500 (15 + 1)).landscapeLock = none ∧
    (runTicks sampleEnv tickState 0 500 (15 + 1)).landscapeLockStage = none ∧
    (runTicks sampleEnv tickState 0 500 (15 + 1)).landscapeLockTime = none ∧
    (1 < tickState.numSlots →
      (∀ pImg, getRandomPortraitImage sampleEnv tickState tickState.currentImages = some pImg →
        sampleEnv.loadOk pImg = true →
        (runTicks sampleEnv tickState 0 500 (15 + 1)).slotImagePath 1 = pImg) ∧
      (¬ tickState.pinned 1 = true →
        (runTicks sampleEnv tickState 0 500 (15 + 1)).timers 1 =
          { active := true, remaining := sampleEnv.interval 1 }) ∧
      (tickState.pinned 1 = true →
        ((runTicks sampleEnv tickState 0 500 (15 + 1)).timers 1).active = false ∨
        (runTicks sampleEnv tickState 0 500 (15 + 1)).timers 1 = tickState.timers 1)) :=
  timeout_recovery_amended sampleEnv tickState 1 0 500 15 rfl rfl
    (by omega) (by omega)
    (by
      intro j hj
      simp only [landscapeLockTimeout]
      omega)
    (by
      simp only [landscapeLockTimeout]
      omega)

/-- C9: the 3000 ms post-transition cooldown window is never enforced.  From
a state whose cooldown window is still running (cooldownActive = true after a
completed transition), with the layout in Portrait and no transition in
progress, switch_to_landscape_mode_with_image still begins and completes a
Portrait-to-Landscape mode switch.  The code starts the cooldown timer in
three places and documents it as "3 seconds minimum between mode switches",
but no mode-switch path ever consults it and on_cooldown_finished does
nothing, so the refusal the claim (and the code comment) describes never
happens. -/
theorem cooldown_not_enforced :
    cooldownState.cooldownActive = true ∧
    cooldownState.transitionInProgress = false ∧
    cooldownState.currentLayoutMode = LayoutMode.portrait ∧
    (switchToLandscapeModeWithImage sampleEnv cooldownState imgW 0).currentLayoutMode =
      LayoutMode.landscape ∧
    (switchToLandscapeModeWithImage sampleEnv cooldownState imgW 0).cooldownActive = true := by
  refine ⟨?_, ?_, ?_, ?_, ?_⟩ <;> rfl

end ImagesPlayer
